import Mathlib

/-!
# MySQL Router: handshake inspector, routing options, cache registry, plugin lookup

A shallow embedding of four parts of the router and theorems about them:

* `ClassicProtocol::copy_packets`
  (`src/routing/src/protocol/classic_protocol.cc`);
* `RoutingPluginConfig::is_required`, `get_default`, `get_option_mode` and
  `get_option_destinations` (`src/routing/src/plugin_config.cc`);
* `fabric_cache::cache_init`, `have_cache`, `lookup_group` and `lookup_shard`
  (`src/fabric_cache/src/cache_api.cc`);
* `Library_file::get_plugin_struct` and `get_plugin_struct_internal`
  (`tools/plugin_info/src/library_file.cc`).

`copy_packets` has four kinds of input and output, all made explicit here:

* the in/out arguments `buffer`, `*curr_pktnr`, `handshake_done`,
  `*report_bytes_read` (`Session`);
* the answers of the injected `socket_operations_` object (`SocketOperations`);
* the packet classes of `mysqlrouter/mysql_protocol.h`, whose implementation is
  not part of the sources at hand (`MysqlProtocol`, a parameter);
* what the call does to the outside: the `write_all` calls, the debug log, the
  socket-operations errno and how the call ends (`Outcome`).

The configuration and cache routines end by returning or by an exception
(`Completion`); the library routines and classes they call are parameters
(`ConfigLibrary`, `FabricLibrary`), and the process-wide map of caches is passed
along as a `Registry`.
-/

namespace Routing

/-! ## Data model -/

/-- The byte vector `RoutingProtocolBuffer` (`std::vector<uint8_t>`); an element
is a byte value `0..255`. -/
abbrev RoutingProtocolBuffer := List Nat

/-- Largest value of the C++ type `int` (32 bit), the type of `*curr_pktnr`. -/
def INT_MAX : Int := 2147483647

/-- Modelled from the spec: `mysql_protocol::Packet::kHeaderSize`, declared in
`mysqlrouter/mysql_protocol.h`. The spec's framing has a 4-byte header and the
comment at the use site reads "We need packet which is at least 4 bytes". -/
def kHeaderSize : Nat := 4

/-- Modelled from the spec: `mysql_protocol::kClientSSL`, declared in
`mysqlrouter/mysql_protocol.h`; the spec gives `CLIENT_SSL = 0x0800`. -/
def kClientSSL : Nat := 0x0800

/-- The operations of `mysqlrouter/mysql_protocol.h` that `copy_packets` calls.
Their implementation is not among the sources, so the embedding takes them as a
parameter. `none` stands for a thrown `mysql_protocol::packet_error`. -/
structure MysqlProtocol where
  /-- The constructor `mysql_protocol::Packet(buffer)`; the result is the
  packet's byte vector. -/
  Packet : RoutingProtocolBuffer → Option RoutingProtocolBuffer
  /-- The call `pkt.get_int<uint32_t>(position)`. -/
  get_int_uint32 : RoutingProtocolBuffer → Nat → Option Nat
  /-- The constructor `mysql_protocol::ErrorPacket(buffer)`; the result is what
  `data()` and `size()` of the constructed packet describe. -/
  ErrorPacket : RoutingProtocolBuffer → Option RoutingProtocolBuffer

/-- Answer of `socket_operations_->read(sender, &buffer.front(), buffer_length)`. -/
inductive ReadAnswer where
  /-- The call returns `-1` and leaves `errno` in the socket operations. -/
  | failed (errno : Int)
  /-- The bytes this `read` has to deliver; it moves as many of them as fit into
  the front of the buffer and returns their number. No byte on a readable
  socket is the plain connection close (`read` returns `0`). -/
  | data (pending : List Nat)
  deriving DecidableEq, Repr

/-- Answer of `socket_operations_->write_all(fd, data, size)`. -/
inductive WriteAnswer where
  /-- The call returns a value `>= 0`. -/
  | ok
  /-- The call returns a negative value and leaves `errno`. -/
  | failed (errno : Int)
  deriving DecidableEq, Repr

/-- What the injected socket operations answer during one call of
`copy_packets`: the errno they hold on entry, the answer to the `read` and the
answer to the `write_all` (each is called at most once per call). -/
structure SocketOperations where
  errno : Int
  read : ReadAnswer
  write_all : WriteAnswer
  deriving DecidableEq, Repr

/-- The `log_debug` calls of `copy_packets`. -/
inductive LogEntry where
  /-- Line 63: "fd=%d read failed: (%d %s)". -/
  | read_failed (fd : Int) (errno : Int)
  /-- Line 85: "Received incorrect packet number; aborting (was %d)". -/
  | incorrect_packet_number (pktnr : Int)
  /-- Lines 99 and 128: "fd=%d write error: %s". -/
  | write_error (fd : Int) (errno : Int)
  /-- Line 116: the text of the caught `packet_error`. -/
  | packet_error
  deriving DecidableEq, Repr

/-- How a call of `copy_packets` ends. -/
inductive Exit where
  /-- A `return` statement with this value. -/
  | returned (res : Int)
  /-- A `packet_error` thrown outside the `try` block leaves the function. -/
  | packet_error_thrown
  /-- The call has no defined behaviour in C++: a vector subscript outside the
  buffer, `front()` of an empty buffer, or signed overflow of
  `*curr_pktnr + 1`. -/
  | undefined_behaviour
  deriving DecidableEq, Repr

/-- The in/out arguments of `copy_packets`, which the caller keeps between the
calls of one routing session. -/
structure Session where
  curr_pktnr : Int
  handshake_done : Bool
  report_bytes_read : Nat
  buffer : RoutingProtocolBuffer
  deriving DecidableEq, Repr

/-- Everything observable after a call: the in/out arguments, how the call
ended, the errno of the socket operations, the `write_all` calls in order (file
descriptor and the bytes handed over), the indices at which the routine itself
subscripted `buffer` to read a byte, and the debug log. -/
structure Outcome extends Session where
  exit : Exit
  errno : Int
  writes : List (Int × RoutingProtocolBuffer)
  inspected : List Nat
  log : List LogEntry
  deriving DecidableEq, Repr

/-! ## `ClassicProtocol::copy_packets` -/

/-- Lines 125-138: hand the first `bytes_read` bytes of the buffer to
`write_all`; on failure log and return `-1`, otherwise store `pktnr` and
`bytes_read` through the out-pointers and return `0`. -/
def forward (so : SocketOperations) (receiver : Int) (m : Outcome) (pktnr : Int)
    (bytes_read : Nat) : Outcome :=
  match so.write_all with
  | .failed e =>
    { m with
      exit := .returned (-1)
      errno := e
      writes := m.writes ++ [(receiver, m.buffer.take bytes_read)]
      log := m.log ++ [.write_error receiver e] }
  | .ok =>
    { m with
      exit := .returned 0
      curr_pktnr := pktnr
      report_bytes_read := bytes_read
      writes := m.writes ++ [(receiver, m.buffer.take bytes_read)] }

/-- Lines 89-106: the packet carries the error marker. The bytes read are
copied into `buffer_err`, an `ErrorPacket` is built from them and written to the
receiver; a failed write is only logged. -/
def forward_server_error (mp : MysqlProtocol) (so : SocketOperations) (receiver : Int)
    (m : Outcome) (bytes_read : Nat) : Outcome :=
  let buffer_err := m.buffer.take bytes_read
  match mp.ErrorPacket buffer_err with
  | none => { m with exit := .packet_error_thrown }
  | some server_error =>
    let w : Outcome :=
      match so.write_all with
      | .failed e =>
        { m with
          errno := e
          writes := m.writes ++ [(receiver, server_error)]
          log := m.log ++ [.write_error receiver e] }
      | .ok => { m with writes := m.writes ++ [(receiver, server_error)] }
    { w with exit := .returned 0, curr_pktnr := 2, report_bytes_read := bytes_read }

/-- Lines 74-123: the checks made while `handshake_done` is false, followed by
the forwarding of lines 125-138 when none of them ends the call. `m.buffer`
holds the buffer after the read and `curr_pktnr` the value of `*curr_pktnr` on
entry. -/
def inspect_handshake (mp : MysqlProtocol) (so : SocketOperations) (receiver : Int)
    (m : Outcome) (curr_pktnr : Int) (bytes_read : Nat) : Outcome :=
  if bytes_read < kHeaderSize then
    { m with exit := .returned (-1) }
  else
    match (m.buffer[3]? : Option Nat) with
    | none => { m with exit := .undefined_behaviour }
    | some b3 =>
      let pktnr : Int := (b3 : Nat)
      let m := { m with inspected := m.inspected ++ [3] }
      if 0 < curr_pktnr ∧ INT_MAX < curr_pktnr + 1 then
        { m with exit := .undefined_behaviour }
      else if 0 < curr_pktnr ∧ pktnr ≠ curr_pktnr + 1 then
        { m with
          exit := .returned (-1)
          log := m.log ++ [.incorrect_packet_number pktnr] }
      else
        match (m.buffer[4]? : Option Nat) with
        | none => { m with exit := .undefined_behaviour }
        | some b4 =>
          let m := { m with inspected := m.inspected ++ [4] }
          if b4 = 0xff then
            forward_server_error mp so receiver m bytes_read
          else if pktnr = 1 then
            match (mp.Packet m.buffer).bind (fun pkt => mp.get_int_uint32 pkt 4) with
            | none =>
              { m with
                exit := .returned (-1)
                log := m.log ++ [.packet_error] }
            | some capabilities =>
              if capabilities &&& kClientSSL ≠ 0 then
                forward so receiver m 2 bytes_read
              else
                forward so receiver m pktnr bytes_read
          else
            forward so receiver m pktnr bytes_read

/-- The bytes a `read` into `buffer` stores when it has `pending` to deliver:
at most `buffer.size()` of them. Their number is the value `read` returns. -/
def read_bytes (pending : List Nat) (buffer : RoutingProtocolBuffer) : List Nat :=
  pending.take buffer.length

/-- The buffer after that `read`: the bytes read at the front, the old content
behind them. -/
def buffer_after_read (pending : List Nat) (buffer : RoutingProtocolBuffer) :
    RoutingProtocolBuffer :=
  read_bytes pending buffer ++ buffer.drop (read_bytes pending buffer).length

/-- The routine `ClassicProtocol::copy_packets(sender, receiver,
sender_is_readable, buffer, curr_pktnr, handshake_done, report_bytes_read,
from_server)`. The in/out arguments are `s`; `mp` and `so` are the packet
library and the answers of the socket operations. -/
def copy_packets (mp : MysqlProtocol) (so : SocketOperations) (sender receiver : Int)
    (sender_is_readable : Bool) (s : Session) (_from_server : Bool) : Outcome :=
  let pktnr : Int := 0
  let handshake_done :=
    if !s.handshake_done && s.curr_pktnr == 2 then true else s.handshake_done
  let m : Outcome :=
    { s with
      handshake_done := handshake_done
      exit := .returned 0
      errno := so.errno
      writes := []
      inspected := []
      log := [] }
  if sender_is_readable then
    -- line 59 evaluates `&buffer.front()`, which is undefined on an empty vector
    if s.buffer = [] then
      { m with exit := .undefined_behaviour }
    else
      match so.read with
      | .failed e =>
        { m with exit := .returned (-1), errno := e, log := [.read_failed sender e] }
      | .data pending =>
        let bytes_read := (read_bytes pending s.buffer).length
        if bytes_read = 0 then
          { m with exit := .returned (-1), errno := 0 }
        else
          let m := { m with buffer := buffer_after_read pending s.buffer }
          if !handshake_done then
            inspect_handshake mp so receiver m s.curr_pktnr bytes_read
          else
            forward so receiver m pktnr bytes_read
  else
    { m with curr_pktnr := pktnr, report_bytes_read := 0 }

/-- The caller's loop: the calls of one session in order, each made on the
in/out arguments as the previous call left them. A call is given by the answers
of the socket operations, the two file descriptors, `sender_is_readable` and
`from_server`. -/
structure Call where
  so : SocketOperations
  sender : Int
  receiver : Int
  sender_is_readable : Bool
  from_server : Bool
  deriving DecidableEq, Repr

/-- One call of `copy_packets` with the arguments of `c`. -/
def Call.run (mp : MysqlProtocol) (c : Call) (s : Session) : Outcome :=
  copy_packets mp c.so c.sender c.receiver c.sender_is_readable s c.from_server

/-- The outcomes of a sequence of calls on one session, in order. -/
def run_calls (mp : MysqlProtocol) (s : Session) : List Call → List Outcome
  | [] => []
  | c :: cs =>
    let o := c.run mp s
    o :: run_calls mp o.toSession cs

/-! ## The packet library as the spec describes it -/

/-- Value of a little-endian byte sequence. -/
def le_value : List Nat → Nat
  | [] => 0
  | b :: bs => b + 256 * le_value bs

/-- Modelled from the spec: `mysql_protocol::Packet(buffer)` of
`mysqlrouter/mysql_protocol.h`. "Every wire packet is a 4-byte header
`{len:3 LE, seqno:1}` followed by `len` bytes of payload": a buffer that holds
the header and at least `len` further bytes is taken as a packet. -/
def spec_Packet (buffer : RoutingProtocolBuffer) : Option RoutingProtocolBuffer :=
  if 4 ≤ buffer.length ∧ 4 + le_value (buffer.take 3) ≤ buffer.length then some buffer
  else none

/-- Modelled from the spec: `Packet::get_int<uint32_t>(position)` of
`mysqlrouter/mysql_protocol.h`. The capability field is "little-endian 32-bit":
the four bytes from `position` on, least significant first. -/
def spec_get_int_uint32 (pkt : RoutingProtocolBuffer) (position : Nat) : Option Nat :=
  if position + 4 ≤ pkt.length then some (le_value ((pkt.drop position).take 4))
  else none

/-- Modelled from the spec: `mysql_protocol::ErrorPacket(buffer)` of
`mysqlrouter/mysql_protocol.h`. The spec has the server's error packet
"forwarded verbatim": the packet serialises to the bytes it was built from. -/
def spec_ErrorPacket (buffer : RoutingProtocolBuffer) : Option RoutingProtocolBuffer :=
  some buffer

/-- The packet library as the spec describes it. -/
def spec_protocol : MysqlProtocol where
  Packet := spec_Packet
  get_int_uint32 := spec_get_int_uint32
  ErrorPacket := spec_ErrorPacket

/-- Modelled from the spec: a packet library whose `ErrorPacket` constructor
"validates packet framing" as the `Packet` constructor does: for a buffer that
does not hold the header and the payload the header announces it throws
`packet_error`; a whole packet serialises to the bytes it was built from. -/
def framing_protocol : MysqlProtocol where
  Packet := spec_Packet
  get_int_uint32 := spec_get_int_uint32
  ErrorPacket := fun buffer => if (spec_Packet buffer).isSome then some buffer else none

/-! ## Exceptions and results of the configuration and cache routines -/

/-- The C++ exceptions that can leave the routines of `plugin_config.cc` and
`cache_api.cc`, each with its `what()` text. -/
inductive Exception where
  /-- The exception `std::invalid_argument`: a configuration error. -/
  | invalid_argument (what : String)
  /-- The exception `std::out_of_range`. -/
  | out_of_range (what : String)
  /-- The exception `fabric_cache::base_error`. -/
  | base_error (what : String)
  /-- An exception of any other type, thrown inside a routine that is called. -/
  | other (what : String)
  deriving DecidableEq, Repr

/-- How a call of one of these routines ends. -/
inductive Completion (α : Type) where
  /-- A `return` statement with this value. -/
  | returned (value : α)
  /-- An exception leaves the routine. -/
  | raised (e : Exception)
  /-- The call has no defined behaviour in C++ (a vector subscript out of range). -/
  | undefined_behaviour
  deriving DecidableEq, Repr

/-! ## `RoutingPluginConfig` (`plugin_config.cc`) -/

/-- Modelled from the spec: `routing::AccessMode`, declared in
`mysqlrouter/routing.h`. "Access mode. One of `read-write`, `read-only`." -/
inductive AccessMode where
  | kReadWrite
  | kReadOnly
  deriving DecidableEq, Repr

/-- The fields of `mysqlrouter::URI` that `get_option_destinations` reads. -/
structure URI where
  scheme : String
  path : List String
  deriving DecidableEq, Repr

/-- The configuration section `mysql_harness::ConfigSection`, seen through its
method `get(option)`: `none` stands for a thrown `bad_option`. -/
abbrev ConfigSection := String → Option String

/-- What `plugin_config.cc` uses and the sources do not contain: routines of the
base class and of `mysqlrouter/utils.h`, the classes `URI` and `TCPAddress`, and
the constants of `mysqlrouter/routing.h`. The embedding takes them as a
parameter. -/
structure ConfigLibrary where
  /-- The method `get_log_prefix(option)` of the base class. -/
  get_log_prefix : String → String
  /-- The method `get_option_string(section, option)` of the base class. -/
  get_option_string : ConfigSection → String → Except Exception String
  /-- The constructor `URI(value)`; `none` stands for a thrown `URIError`. -/
  URI : String → Option URI
  /-- The routine `mysqlrouter::split_addr_port(part)`; the port is a `uint16_t`. -/
  split_addr_port : String → Except Exception (String × Nat)
  /-- The test `TCPAddress(addr, port).is_valid()`. -/
  TCPAddress_is_valid : String → Nat → Bool
  /-- The text `TCPAddress(addr, port).str()`. -/
  TCPAddress_str : String → Nat → String
  /-- The constant `routing::kDefaultDestinationConnectionTimeout`. -/
  kDefaultDestinationConnectionTimeout : Int
  /-- The constant `routing::kDefaultWaitTimeout`. -/
  kDefaultWaitTimeout : Int
  /-- The constant `routing::kDefaultMaxConnections`. -/
  kDefaultMaxConnections : Int
  /-- The map `routing::kAccessModeNames`, as the list of its entries in
  iteration order. -/
  kAccessModeNames : List (String × AccessMode)

/-- The transformation `std::transform(s.begin(), s.end(), s.begin(), ::tolower)`. -/
def tolower (s : String) : String :=
  String.mk (s.data.map Char.toLower)

/-- The routine `RoutingPluginConfig::get_default(option)`. -/
def get_default (lib : ConfigLibrary) (option : String) : String :=
  let defaults : List (String × String) :=
    [("connect_timeout", toString lib.kDefaultDestinationConnectionTimeout),
     ("wait_timeout", toString lib.kDefaultWaitTimeout),
     ("max_connections", toString lib.kDefaultMaxConnections)]
  match defaults.lookup option with
  | none => ""
  | some second => second

/-- The routine `RoutingPluginConfig::is_required(option)`. -/
def is_required (option : String) : Bool :=
  let required : List String := ["bind_address", "mode", "destinations"]
  required.contains option

/-- The loop `while (std::getline(ss, part, ','))` over `std::stringstream
ss(value)`: the pieces between the delimiters, in order. `part` collects the
characters of the piece being read, last first. At the end of the text a piece
is produced only if a character was extracted for it. -/
def getline_parts (delim : Char) : List Char → List Char → List String
  | [], part => if part = [] then [] else [String.mk part.reverse]
  | c :: rest, part =>
    if c = delim then String.mk part.reverse :: getline_parts delim rest []
    else getline_parts delim rest (c :: part)

/-- Lines 120-122: a port of 0 is replaced by 3306. -/
def destination_port (port : Nat) : Nat :=
  if port = 0 then 3306 else port

/-- Lines 118-127: the body of the loop for each part in turn; the first part
that fails ends the call. -/
def check_destinations (lib : ConfigLibrary) (option : String) :
    List String → Completion Unit
  | [] => .returned ()
  | part :: rest =>
    match lib.split_addr_port part with
    | .error e => .raised e
    | .ok info =>
      let port := destination_port info.2
      if !lib.TCPAddress_is_valid info.1 port then
        .raised (.invalid_argument
          (lib.get_log_prefix option ++ " has an invalid destination address '"
            ++ lib.TCPAddress_str info.1 port ++ "'"))
      else
        check_destinations lib option rest

/-- Lines 100-130 of `get_option_destinations`: the checks made on the value. -/
def check_destinations_value (lib : ConfigLibrary) (option : String) (value : String) :
    Completion String :=
  match lib.URI value with
  | some uri =>
    if uri.scheme = "fabric+cache" then
      match uri.path[0]? with
      | none => .undefined_behaviour
      | some first =>
        let fabric_cmd := tolower first
        if fabric_cmd ≠ "group" then
          .raised (.invalid_argument
            (lib.get_log_prefix option ++ " has an invalid Fabric command in URI; was '"
              ++ fabric_cmd ++ "'"))
        else
          .returned value
    else
      .raised (.invalid_argument
        (lib.get_log_prefix option ++ " has an invalid URI scheme '" ++ uri.scheme
          ++ "' for URI " ++ value))
  | none =>
    match check_destinations lib option (getline_parts ',' value.data []) with
    | .returned () => .returned value
    | .raised e => .raised e
    | .undefined_behaviour => .undefined_behaviour

/-- The routine `RoutingPluginConfig::get_option_destinations(section, option)`. -/
def get_option_destinations (lib : ConfigLibrary) (config_section : ConfigSection)
    (option : String) : Completion String :=
  let required := is_required option
  match config_section option with
  | none =>
    if required then
      .raised (.invalid_argument (lib.get_log_prefix option ++ " is required"))
    else
      -- `value` is still empty and not required: line 97
      check_destinations_value lib option (get_default lib option)
  | some value =>
    if value.isEmpty then
      if required then
        .raised (.invalid_argument
          (lib.get_log_prefix option ++ " is required and needs a value"))
      else
        check_destinations_value lib option (get_default lib option)
    else
      check_destinations_value lib option value

/-- A part of the comma list "yields a valid TCPAddress": `split_addr_port`
returns for it, and the address it gives, with a port of 0 replaced by 3306, is
valid. -/
def part_valid (lib : ConfigLibrary) (part : String) : Bool :=
  match lib.split_addr_port part with
  | .ok info => lib.TCPAddress_is_valid info.1 (if info.2 = 0 then 3306 else info.2)
  | .error _ => false

/-! ## The configuration library as the spec describes it -/

/-- The text before the first `"://"` and the text behind it. -/
def split_scheme : List Char → List Char → Option (List Char × List Char)
  | [], _ => none
  | c :: rest, scheme =>
    match c, rest with
    | ':', '/' :: '/' :: behind => some (scheme.reverse, behind)
    | _, _ => split_scheme rest (c :: scheme)

/-- Modelled from the spec: the constructor of `mysqlrouter::URI`
(`mysqlrouter/uri.h`), for the grammar
`scheme "://" authority [ "/" path ] [ "?" query ]`. A text without `"://"` or
with an empty scheme is no URI; the path is the list of the non-empty segments
between the authority and the query. -/
def spec_URI (value : String) : Option URI :=
  match split_scheme value.data [] with
  | none => none
  | some (scheme, behind) =>
    if scheme = [] then none
    else
      let segments := getline_parts '/' (behind.takeWhile (fun c => c ≠ '?')) []
      some { scheme := String.mk scheme, path := (segments.drop 1).filter (fun s => s ≠ "") }

/-- Decimal value of a port text: `none` unless it consists of digits and the
value fits a `uint16_t`. -/
def parse_port (digits : List Char) : Option Nat :=
  if digits ≠ [] ∧ digits.all Char.isDigit = true then
    let n := digits.foldl (fun n c => 10 * n + (c.toNat - 48)) 0
    if n ≤ 65535 then some n else none
  else none

/-- Modelled from the spec: `mysqlrouter::split_addr_port`
(`mysqlrouter/utils.h`). "Port is optional ...; host may be a bare literal or a
bracketed IPv6 literal": `host`, `host:port`, `[host]` and `[host]:port` are
split, a missing port is reported as 0 (the value line 120 tests for), and a
port text that is no number below 65536 is a configuration error. A bare text
with several colons is an IPv6 literal without port. -/
def spec_split_addr_port (part : String) : Except Exception (String × Nat) :=
  let cs := part.data
  let port_of (behind : List Char) (host : List Char) : Except Exception (String × Nat) :=
    match behind with
    | [] => .ok (String.mk host, 0)
    | ':' :: digits =>
      match parse_port digits with
      | some n => .ok (String.mk host, n)
      | none => .error (.invalid_argument "invalid TCP port")
    | _ => .error (.invalid_argument "invalid address")
  match cs with
  | '[' :: inner =>
    if inner.contains ']' then
      port_of ((inner.dropWhile (fun c => c ≠ ']')).drop 1) (inner.takeWhile (fun c => c ≠ ']'))
    else .error (.invalid_argument "invalid IPv6 address")
  | _ =>
    if cs.count ':' ≤ 1 then
      port_of (cs.dropWhile (fun c => c ≠ ':')) (cs.takeWhile (fun c => c ≠ ':'))
    else .ok (part, 0)

/-- Modelled from the spec: `TCPAddress::is_valid` (`mysqlrouter/datatypes.h`).
"Host (name or literal IPv4/IPv6) plus port (1..65535)"; "invalid characters,
empty host, or port outside 1..65535 fail". -/
def spec_is_valid (addr : String) (port : Nat) : Bool :=
  addr ≠ "" && addr.data.all (fun c => c.isAlphanum || c = '.' || c = '-' || c = ':')
    && decide (1 ≤ port) && decide (port ≤ 65535)

/-- Modelled from the spec: `get_option_string` of the base class
(`plugin_config.h`). "Missing required keys ... are configuration errors": a
required option that is absent or empty raises `invalid_argument`, any other
option yields its text. -/
def spec_get_option_string (config_section : ConfigSection) (option : String) :
    Except Exception String :=
  match config_section option with
  | none =>
    if is_required option then .error (.invalid_argument (option ++ " is required"))
    else .ok ""
  | some value =>
    if value.isEmpty ∧ is_required option = true then
      .error (.invalid_argument (option ++ " is required and needs a value"))
    else .ok value

/-- The configuration library as the spec describes it. The log prefix, the
address text and the three default constants, of which the spec says nothing
definite, have sample values. -/
def spec_library : ConfigLibrary where
  get_log_prefix := fun option => "option " ++ option
  get_option_string := spec_get_option_string
  URI := spec_URI
  split_addr_port := spec_split_addr_port
  TCPAddress_is_valid := spec_is_valid
  TCPAddress_str := fun addr port => addr ++ ":" ++ toString port
  kDefaultDestinationConnectionTimeout := 1
  kDefaultWaitTimeout := 0
  kDefaultMaxConnections := 512
  kAccessModeNames := [("read-only", .kReadOnly), ("read-write", .kReadWrite)]

/-- Modelled from the spec: a configuration library that differs from
`spec_library` in the type of the "configuration error" of `split_addr_port`:
for a token it cannot split, `split_addr_port` throws a `std::runtime_error`
with the same text, not a `std::invalid_argument`. -/
def runtime_error_library : ConfigLibrary :=
  { spec_library with
    split_addr_port := fun part =>
      match spec_split_addr_port part with
      | .ok info => .ok info
      | .error (.invalid_argument what) => .error (.other what)
      | .error e => .error e }

/-- A configuration section with the given options. -/
def demo_section (options : List (String × String)) : ConfigSection :=
  fun option => options.lookup option

/-! ## The registry of named caches (`cache_api.cc`) -/

namespace fabric_cache

/-- Modelled from the spec: the class `FabricCache` (`fabric_cache.h`), a "cache
instance" of the registry. An object is given by the arguments of its
constructor `FabricCache(host, port, user, password, connection_timeout,
connection_attempts)`. -/
structure FabricCache where
  host : String
  port : Int
  user : String
  password : String
  connection_timeout : Int
  connection_attempts : Int
  deriving DecidableEq, Repr

/-- Modelled from the spec: an entry of the server list a lookup yields
(`ManagedServer` of `mysqlrouter/fabric_cache.h`), an address. -/
structure ManagedServer where
  host : String
  port : Nat
  deriving DecidableEq, Repr

/-- Modelled from the spec: the class `LookupResult`
(`mysqlrouter/fabric_cache.h`), which holds the server list it is built from. -/
structure LookupResult where
  server_list : List ManagedServer
  deriving DecidableEq, Repr

/-- The methods of `FabricCache` that the lookups call; their implementation is
not among the sources, so the embedding takes them as a parameter. An `error`
stands for an exception thrown by the method. -/
structure FabricLibrary where
  /-- The method `group_lookup(group_id)`. -/
  group_lookup : FabricCache → String → Except Exception (List ManagedServer)
  /-- The method `shard_lookup(table_name, shard_key)`. -/
  shard_lookup : FabricCache → String → String → Except Exception (List ManagedServer)

/-- What `cache_init` does besides changing the map. -/
inductive CacheEvent where
  /-- The expression `new FabricCache(host, port, user, password, 1, 1)`. -/
  | constructed (cache : FabricCache)
  /-- The call `start()` on the entry under this name. -/
  | started (cache_name : String) (cache : FabricCache)
  deriving DecidableEq, Repr

/-- The process-wide state of `cache_api.cc`: the map `g_fabric_caches`, as the
list of its entries (at most one for a key; `find` does not observe the order),
and the constructions and starts made so far. -/
structure Registry where
  g_fabric_caches : List (String × FabricCache)
  events : List CacheEvent
  deriving DecidableEq, Repr

/-- The registry at process start. -/
def Registry.initial : Registry :=
  { g_fabric_caches := [], events := [] }

/-- The call `g_fabric_caches.find(cache_name)`; `none` stands for `end()`. -/
def find (r : Registry) (cache_name : String) : Option FabricCache :=
  r.g_fabric_caches.lookup cache_name

/-- The call `g_fabric_caches.emplace(cache_name, cache)`: the entry is added
unless the key is present. -/
def emplace (caches : List (String × FabricCache)) (cache_name : String)
    (cache : FabricCache) : List (String × FabricCache) :=
  if (caches.lookup cache_name).isSome then caches else caches ++ [(cache_name, cache)]

/-- The object `new FabricCache(host, port, user, password, 1, 1)` of line 45. -/
def new_FabricCache (host : String) (port : Int) (user password : String) : FabricCache :=
  { host := host, port := port, user := user, password := password,
    connection_timeout := 1, connection_attempts := 1 }

/-- The routine `fabric_cache::cache_init(cache_name, host, port, user,
password)`, for calls made one after the other. -/
def cache_init (r : Registry) (cache_name host : String) (port : Int)
    (user password : String) : Completion Registry :=
  if (find r cache_name).isSome then
    .returned r
  else
    let cache := new_FabricCache host port user password
    let r1 : Registry :=
      { g_fabric_caches := emplace r.g_fabric_caches cache_name cache
        events := r.events ++ [.constructed cache] }
    match find r1 cache_name with
    | none => .undefined_behaviour
    | some second => .returned { r1 with events := r1.events ++ [.started cache_name second] }

/-- The routine `fabric_cache::have_cache(cache_name)`. -/
def have_cache (r : Registry) (cache_name : String) : Bool :=
  (find r cache_name).isSome

/-- The expression `LookupResult(...)` around the call of a lookup method. -/
def lookup_result : Except Exception (List ManagedServer) → Completion LookupResult
  | .ok server_list => .returned { server_list := server_list }
  | .error e => .raised e

/-- The routine `fabric_cache::lookup_group(cache_name, group_id)`: how it ends,
and the registry it leaves. -/
def lookup_group (lib : FabricLibrary) (r : Registry) (cache_name group_id : String) :
    Completion LookupResult × Registry :=
  match find r cache_name with
  | none =>
    (.raised (.base_error ("Fabric Cache '" ++ cache_name ++ "' not initialized")), r)
  | some second => (lookup_result (lib.group_lookup second group_id), r)

/-- The routine `fabric_cache::lookup_shard(cache_name, table_name, shard_key)`:
how it ends, and the registry it leaves. -/
def lookup_shard (lib : FabricLibrary) (r : Registry)
    (cache_name table_name shard_key : String) : Completion LookupResult × Registry :=
  match find r cache_name with
  | none =>
    (.raised (.base_error ("Fabric Cache '" ++ cache_name ++ "' not initialized")), r)
  | some second => (lookup_result (lib.shard_lookup second table_name shard_key), r)

/-- The arguments of one call of `cache_init`. -/
structure InitCall where
  cache_name : String
  host : String
  port : Int
  user : String
  password : String
  deriving DecidableEq, Repr

/-- One call of `cache_init` with the arguments of `c`. -/
def InitCall.run (c : InitCall) (r : Registry) : Completion Registry :=
  cache_init r c.cache_name c.host c.port c.user c.password

/-- The calls of `cache_init` of a list, made in order; a call that does not
return ends the run. -/
def init_all (r : Registry) : List InitCall → Completion Registry
  | [] => .returned r
  | c :: calls =>
    match c.run r with
    | .returned r1 => init_all r1 calls
    | .raised e => .raised e
    | .undefined_behaviour => .undefined_behaviour

/-- A library whose lookups yield one server for the group `ha` and for the
table `t`, and raise "unknown" for anything else. -/
def demo_fabric : FabricLibrary where
  group_lookup := fun cache group_id =>
    if group_id = "ha" then .ok [{ host := cache.host, port := 3306 }]
    else .error (.base_error "unknown group")
  shard_lookup := fun cache table_name _ =>
    if table_name = "t" then .ok [{ host := cache.host, port := 3307 }]
    else .error (.base_error "unknown table")

end fabric_cache

/-! ## `Library_file` (`tools/plugin_info/src/library_file.cc`) -/

/-- A `Library_file` object after its constructor: the two names it stores and
the loaded library behind `impl_->handle`, given by the answers of the dynamic
loader for a symbol: the address `dlsym(impl_->handle, symbol)` returns and the
text the `dlerror()` after it returns (`none` for a null pointer, no error). -/
structure Library_file where
  plugin_name_ : String
  file_name_ : String
  dlsym : String → Nat
  dlerror : String → Option String

/-- How a lookup ends: `ok` with the address returned, or `error` with the
`what()` text of the `std::runtime_error` thrown; and the symbols handed to
`dlsym`, in order. -/
structure PluginLookup where
  result : Except String Nat
  symbols : List String

/-- The routine `Library_file::get_plugin_struct_internal<T>(symbol)` (lines
101-122, the branch without `_WIN32`). -/
def Library_file.get_plugin_struct_internal (lf : Library_file) (symbol : String) :
    PluginLookup :=
  let result := lf.dlsym symbol
  match lf.dlerror symbol with
  | some error =>
    { result := .error ("Loading plugin information for '" ++ lf.file_name_
        ++ "' failed: " ++ error)
      symbols := [symbol] }
  | none => { result := .ok result, symbols := [symbol] }

/-- The routine `Library_file::get_plugin_struct<T>(symbol)` (lines 84-99). -/
def Library_file.get_plugin_struct (lf : Library_file) (symbol : String) : PluginLookup :=
  let first := lf.get_plugin_struct_internal ("harness_plugin_" ++ symbol)
  match first.result with
  | .ok result => { result := .ok result, symbols := first.symbols }
  | .error _ =>
    let second := lf.get_plugin_struct_internal lf.plugin_name_
    { result := second.result, symbols := first.symbols ++ second.symbols }

/-! ## Sample inputs -/

/-- A 16-byte buffer of zeros and a fresh session on it. -/
def demo_session (curr_pktnr : Int) (handshake_done : Bool) : Session :=
  { curr_pktnr := curr_pktnr, handshake_done := handshake_done, report_bytes_read := 0,
    buffer := List.replicate 16 0 }

/-- A call on file descriptors 10 (sender) and 11 (receiver) whose `read` finds
`pending` and whose `write_all` succeeds. -/
def demo_call (pending : List Nat) (from_server : Bool) : Call :=
  { so := { errno := 0, read := .data pending, write_all := .ok },
    sender := 10, receiver := 11, sender_is_readable := true, from_server := from_server }

/-- The server error packet with code 1045, SQL state 28000 and message "no",
seqno 0: header `0b 00 00 00`, payload `ff 15 04 23 32 38 30 30 30 6e 6f`. -/
def demo_error_packet : List Nat :=
  [11, 0, 0, 0, 255, 21, 4, 35, 50, 56, 48, 48, 48, 110, 111]

/-- A server error packet cut short: the header `c8 00 00 00` announces 200
bytes of payload with seqno 0, and the five bytes `ff 15 04 23 32` follow. -/
def demo_truncated_error_packet : List Nat :=
  [200, 0, 0, 0, 255, 21, 4, 35, 50]

/-- The socket answers of a call whose `read` finds `pending` and whose
`write_all` fails with errno 32. -/
def demo_failing_write (pending : List Nat) : SocketOperations :=
  { errno := 0, read := .data pending, write_all := .failed 32 }

/-- A server greeting with seqno 0 whose payload has 20 bytes: 24 bytes, more
than the 16-byte buffer of `demo_session` holds. -/
def demo_long_greeting : List Nat :=
  [20, 0, 0, 0, 10, 53, 46, 55, 46, 57, 0, 1, 0, 0, 0, 97,
   98, 99, 100, 101, 102, 103, 104, 0]

/-- A library file `routing.so` that exports the symbols of `exported` (with
their addresses) and no other, loaded for the plugin `plugin_name`. -/
def demo_library_file (plugin_name : String) (exported : List (String × Nat)) :
    Library_file where
  plugin_name_ := plugin_name
  file_name_ := "routing.so"
  dlsym := fun symbol => (exported.lookup symbol).getD 0
  dlerror := fun symbol =>
    match exported.lookup symbol with
    | some _ => none
    | none => some ("undefined symbol: " ++ symbol)

/-- The greeting of a server of version 8.0.11, cut to 16 bytes: header
`0c 00 00 00`, protocol version 10, the text `8.0.11` and what follows. -/
def demo_greeting_8 : List Nat :=
  [12, 0, 0, 0, 10, 56, 46, 48, 46, 49, 49, 0, 1, 0, 0, 0]

/-! ## Auxiliary facts -/

/-- Masking with `kClientSSL` tests bit 11 (`0x0800 = 2^11`). -/
theorem kClientSSL_set_iff (cap : Nat) : cap &&& kClientSSL ≠ 0 ↔ cap.testBit 11 = true := by
  have h : kClientSSL = 2 ^ 11 := by decide
  rw [h]
  constructor
  · intro hne
    by_contra hb
    apply hne
    apply Nat.eq_of_testBit_eq
    intro i
    simp only [Nat.testBit_and, Nat.testBit_two_pow, Nat.zero_testBit]
    by_cases hi : 11 = i
    · subst hi; simp [hb]
    · simp [hi]
  · intro hb hz
    have : (cap &&& 2 ^ 11).testBit 11 = true := by
      rw [Nat.testBit_and, hb, Nat.testBit_two_pow_self]; rfl
    rw [hz] at this
    simp at this

/-- A `read` never stores more bytes than the buffer holds. -/
theorem read_bytes_length_le (pending : List Nat) (buffer : RoutingProtocolBuffer) :
    (read_bytes pending buffer).length ≤ buffer.length := by
  simp [read_bytes]

/-- A `read` that receives at least one byte was given a non-empty buffer. -/
theorem buffer_ne_nil_of_read (pending : List Nat) (buffer : RoutingProtocolBuffer)
    (h : (read_bytes pending buffer).length ≠ 0) : ¬ buffer = [] := by
  intro hnil
  apply h
  subst hnil
  simp [read_bytes]

/-- A `read` does not change the size of the buffer. -/
theorem buffer_after_read_length (pending : List Nat) (buffer : RoutingProtocolBuffer) :
    (buffer_after_read pending buffer).length = buffer.length := by
  have := read_bytes_length_le pending buffer
  simp only [buffer_after_read, List.length_append, List.length_drop]
  omega

/-- The front of the buffer after a `read` is what was read. -/
theorem buffer_after_read_take (pending : List Nat) (buffer : RoutingProtocolBuffer) :
    (buffer_after_read pending buffer).take (read_bytes pending buffer).length
      = read_bytes pending buffer := by
  simp [buffer_after_read]

/-- Below the number of bytes read, the buffer holds the bytes read. -/
theorem buffer_after_read_get (pending : List Nat) (buffer : RoutingProtocolBuffer)
    (i : Nat) (hi : i < (read_bytes pending buffer).length) :
    (buffer_after_read pending buffer)[i]? = (read_bytes pending buffer)[i]? := by
  simp [buffer_after_read, List.getElem?_append_left hi]


/-- Forwarding leaves the buffer alone. -/
theorem forward_buffer (so : SocketOperations) (receiver : Int) (m : Outcome) (pktnr : Int)
    (bytes_read : Nat) : (forward so receiver m pktnr bytes_read).buffer = m.buffer := by
  unfold forward
  split <;> rfl

/-- Forwarding a server error leaves the buffer alone. -/
theorem forward_server_error_buffer (mp : MysqlProtocol) (so : SocketOperations)
    (receiver : Int) (m : Outcome) (bytes_read : Nat) :
    (forward_server_error mp so receiver m bytes_read).buffer = m.buffer := by
  unfold forward_server_error
  dsimp only
  cases mp.ErrorPacket (m.buffer.take bytes_read) <;> cases so.write_all <;> rfl

/-- The handshake checks leave the buffer alone. -/
theorem inspect_handshake_buffer (mp : MysqlProtocol) (so : SocketOperations)
    (receiver : Int) (m : Outcome) (curr_pktnr : Int) (bytes_read : Nat) :
    (inspect_handshake mp so receiver m curr_pktnr bytes_read).buffer = m.buffer := by
  unfold inspect_handshake
  dsimp only
  repeat' split
  all_goals first
    | rfl
    | simp only [forward_buffer, forward_server_error_buffer]

/-- No call of `copy_packets` changes the size of the buffer. -/
theorem copy_packets_buffer_length (mp : MysqlProtocol) (so : SocketOperations)
    (sender receiver : Int) (readable : Bool) (s : Session) (from_server : Bool) :
    (copy_packets mp so sender receiver readable s from_server).buffer.length
      = s.buffer.length := by
  unfold copy_packets
  dsimp only
  repeat' split
  all_goals first
    | rfl
    | simp only [forward_buffer, inspect_handshake_buffer, buffer_after_read_length]

/-- Once `handshake_done` is true, or `*curr_pktnr` is 2 on entry, a call is a
plain relay: it ends with `handshake_done` true, subscripts the buffer nowhere,
hands the bytes read to `write_all` and returns 0 if that succeeds. -/
theorem copy_packets_relay (mp : MysqlProtocol) (so : SocketOperations)
    (sender receiver : Int) (readable : Bool) (s : Session) (from_server : Bool)
    (h : s.handshake_done = true ∨ s.curr_pktnr = 2) :
    (copy_packets mp so sender receiver readable s from_server).handshake_done = true ∧
    (copy_packets mp so sender receiver readable s from_server).inspected = [] ∧
    (readable = true → ∀ pending, so.read = .data pending →
      0 < (read_bytes pending s.buffer).length →
      (copy_packets mp so sender receiver readable s from_server).writes
        = [(receiver, read_bytes pending s.buffer)] ∧
      (so.write_all = .ok →
        (copy_packets mp so sender receiver readable s from_server).exit = .returned 0 ∧
        (copy_packets mp so sender receiver readable s from_server).report_bytes_read
          = (read_bytes pending s.buffer).length)) := by
  have hd : (if (!s.handshake_done && s.curr_pktnr == 2) = true then true
      else s.handshake_done) = true := by
    rcases h with h | h
    · simp [h]
    · cases hs : s.handshake_done <;> simp [h]
  refine ⟨?_, ?_, ?_⟩
  · unfold copy_packets forward
    simp only [hd]
    repeat' split
    all_goals simp_all
  · unfold copy_packets forward
    simp only [hd]
    repeat' split
    all_goals simp_all
  · intro hr pending hread hpos
    have hn0 : (read_bytes pending s.buffer).length ≠ 0 := by omega
    have hbuf : ¬ s.buffer = [] := buffer_ne_nil_of_read _ _ hn0
    have htake := buffer_after_read_take pending s.buffer
    unfold copy_packets forward
    simp only [hd, hr, hread, hn0]
    cases hw : so.write_all <;> simp [htake, hbuf]


/-- What a `read` stores depends on the buffer through its size only. -/
theorem read_bytes_congr (pending : List Nat) (b₁ b₂ : RoutingProtocolBuffer)
    (h : b₁.length = b₂.length) : read_bytes pending b₁ = read_bytes pending b₂ := by
  simp [read_bytes, h]

/-- The relay property holds for every call of a run that starts with
`handshake_done` true or `*curr_pktnr = 2`. -/
theorem run_calls_relay (mp : MysqlProtocol) (buffer : RoutingProtocolBuffer)
    (calls : List Call) :
    ∀ s : Session, (s.handshake_done = true ∨ s.curr_pktnr = 2) →
      s.buffer.length = buffer.length →
      ∀ p ∈ calls.zip (run_calls mp s calls),
        p.2.handshake_done = true ∧ p.2.inspected = [] ∧
        (p.1.sender_is_readable = true → ∀ pending, p.1.so.read = .data pending →
          0 < (read_bytes pending buffer).length →
          p.2.writes = [(p.1.receiver, read_bytes pending buffer)] ∧
          (p.1.so.write_all = .ok →
            p.2.exit = .returned 0 ∧
            p.2.report_bytes_read = (read_bytes pending buffer).length)) := by
  induction calls with
  | nil => intro s _ _ p hp; simp [run_calls] at hp
  | cons c cs ih =>
    intro s hs hlen p hp
    have hrel := copy_packets_relay mp c.so c.sender c.receiver c.sender_is_readable s
      c.from_server hs
    have hc : ∀ pending, read_bytes pending s.buffer = read_bytes pending buffer :=
      fun pending => read_bytes_congr pending _ _ hlen
    simp only [hc] at hrel
    simp only [run_calls, List.zip_cons_cons, List.mem_cons] at hp
    rcases hp with hp | hp
    · subst hp
      exact hrel
    · refine ih (c.run mp s).toSession (Or.inl hrel.1) ?_ p hp
      have := copy_packets_buffer_length mp c.so c.sender c.receiver c.sender_is_readable s
        c.from_server
      simp only [Call.run]
      omega

/-- Forwarding adds no "incorrect packet number" entry to the log. -/
theorem forward_log (so : SocketOperations) (receiver : Int) (m : Outcome) (pktnr : Int)
    (bytes_read : Nat) (k : Int)
    (h : LogEntry.incorrect_packet_number k ∉ m.log) :
    LogEntry.incorrect_packet_number k ∉ (forward so receiver m pktnr bytes_read).log := by
  unfold forward
  cases so.write_all <;> simp [h]

/-- Forwarding a server error adds no "incorrect packet number" entry to the log. -/
theorem forward_server_error_log (mp : MysqlProtocol) (so : SocketOperations)
    (receiver : Int) (m : Outcome) (bytes_read : Nat) (k : Int)
    (h : LogEntry.incorrect_packet_number k ∉ m.log) :
    LogEntry.incorrect_packet_number k
      ∉ (forward_server_error mp so receiver m bytes_read).log := by
  unfold forward_server_error
  dsimp only
  cases mp.ErrorPacket (m.buffer.take bytes_read) <;> cases so.write_all <;> simp [h]

/-- Forwarding subscripts the buffer nowhere. -/
theorem forward_inspected (so : SocketOperations) (receiver : Int) (m : Outcome)
    (pktnr : Int) (bytes_read : Nat) :
    (forward so receiver m pktnr bytes_read).inspected = m.inspected := by
  unfold forward
  cases so.write_all <;> rfl

/-- Forwarding a server error subscripts the buffer nowhere. -/
theorem forward_server_error_inspected (mp : MysqlProtocol) (so : SocketOperations)
    (receiver : Int) (m : Outcome) (bytes_read : Nat) :
    (forward_server_error mp so receiver m bytes_read).inspected = m.inspected := by
  unfold forward_server_error
  dsimp only
  cases mp.ErrorPacket (m.buffer.take bytes_read) <;> cases so.write_all <;> rfl

/-- When the comparison of line 84 does not reject (and `*curr_pktnr + 1` does
not overflow), the handshake checks log no "incorrect packet number" and, if
`buffer[4]` exists, go on to read it. -/
theorem inspect_handshake_seqno_passed (mp : MysqlProtocol) (so : SocketOperations)
    (receiver : Int) (m : Outcome) (curr_pktnr : Int) (bytes_read seqno : Nat)
    (hlog : m.log = []) (hins : m.inspected = [])
    (hlen : 4 ≤ bytes_read) (hb3 : m.buffer[3]? = some seqno)
    (hov : ¬ (0 < curr_pktnr ∧ INT_MAX < curr_pktnr + 1))
    (hchk : ¬ (0 < curr_pktnr ∧ (seqno : Int) ≠ curr_pktnr + 1)) :
    (∀ k, LogEntry.incorrect_packet_number k
        ∉ (inspect_handshake mp so receiver m curr_pktnr bytes_read).log) ∧
    (∀ b4, m.buffer[4]? = some b4 →
      (inspect_handshake mp so receiver m curr_pktnr bytes_read).inspected = [3, 4]) := by
  have hnh : ¬ bytes_read < kHeaderSize := by simp only [kHeaderSize]; omega
  constructor
  · intro k
    unfold inspect_handshake
    simp only [hnh, hb3, hov, hchk, if_false]
    cases h4 : (m.buffer[4]? : Option Nat) with
    | none => simp [hlog]
    | some b4 =>
      dsimp only
      repeat' split
      all_goals first
        | (apply forward_log; simp [hlog])
        | (apply forward_server_error_log; simp [hlog])
        | simp [hlog]
  · intro b4 h4
    unfold inspect_handshake
    simp only [hnh, hb3, hov, hchk, if_false, h4]
    repeat' split
    all_goals first
      | simp [forward_inspected, forward_server_error_inspected, hins]

/-- Forwarding leaves `handshake_done` alone. -/
theorem forward_handshake_done (so : SocketOperations) (receiver : Int) (m : Outcome)
    (pktnr : Int) (bytes_read : Nat) :
    (forward so receiver m pktnr bytes_read).handshake_done = m.handshake_done := by
  unfold forward
  cases so.write_all <;> rfl

/-- Forwarding a server error leaves `handshake_done` alone. -/
theorem forward_server_error_handshake_done (mp : MysqlProtocol) (so : SocketOperations)
    (receiver : Int) (m : Outcome) (bytes_read : Nat) :
    (forward_server_error mp so receiver m bytes_read).handshake_done = m.handshake_done := by
  unfold forward_server_error
  dsimp only
  cases mp.ErrorPacket (m.buffer.take bytes_read) <;> cases so.write_all <;> rfl

/-- The handshake checks leave `handshake_done` alone. -/
theorem inspect_handshake_handshake_done (mp : MysqlProtocol) (so : SocketOperations)
    (receiver : Int) (m : Outcome) (curr_pktnr : Int) (bytes_read : Nat) :
    (inspect_handshake mp so receiver m curr_pktnr bytes_read).handshake_done
      = m.handshake_done := by
  unfold inspect_handshake
  dsimp only
  repeat' split
  all_goals first
    | rfl
    | simp only [forward_handshake_done, forward_server_error_handshake_done]

/-- A call entered with `handshake_done` false and `*curr_pktnr ≠ 2` ends with
`handshake_done` still false. -/
theorem copy_packets_handshake_phase (mp : MysqlProtocol) (so : SocketOperations)
    (sender receiver : Int) (readable : Bool) (s : Session) (from_server : Bool)
    (hhd : s.handshake_done = false) (hp2 : s.curr_pktnr ≠ 2) :
    (copy_packets mp so sender receiver readable s from_server).handshake_done = false := by
  have hd : (if (!s.handshake_done && s.curr_pktnr == 2) = true then true
      else s.handshake_done) = false := by
    simp [hhd, hp2]
  unfold copy_packets
  simp only [hd]
  repeat' split
  all_goals first
    | rfl
    | simp only [forward_handshake_done, inspect_handshake_handshake_done]


/-- In a handshake-phase call whose `read` stores at least one byte the routine
is the handshake inspection of the buffer just filled. -/
theorem copy_packets_handshake_eq (mp : MysqlProtocol) (so : SocketOperations)
    (sender receiver : Int) (s : Session) (from_server : Bool) (pending : List Nat)
    (hhd : s.handshake_done = false) (hp2 : s.curr_pktnr ≠ 2)
    (hread : so.read = .data pending)
    (hn0 : (read_bytes pending s.buffer).length ≠ 0) :
    copy_packets mp so sender receiver true s from_server
      = inspect_handshake mp so receiver
          { s with
            handshake_done := false
            buffer := buffer_after_read pending s.buffer
            exit := .returned 0
            errno := so.errno
            writes := []
            inspected := []
            log := [] }
          s.curr_pktnr (read_bytes pending s.buffer).length := by
  have hbuf : ¬ s.buffer = [] := buffer_ne_nil_of_read _ _ hn0
  simp [copy_packets, hbuf, hhd, hp2, hread, hn0]

/-- The handshake inspection of at least 4 bytes reads byte 3. -/
theorem inspect_handshake_reads_seqno (mp : MysqlProtocol) (so : SocketOperations)
    (receiver : Int) (m : Outcome) (curr_pktnr : Int) (bytes_read seqno : Nat)
    (hlen : 4 ≤ bytes_read) (hb3 : m.buffer[3]? = some seqno) :
    3 ∈ (inspect_handshake mp so receiver m curr_pktnr bytes_read).inspected := by
  have hnh : ¬ bytes_read < kHeaderSize := by simp only [kHeaderSize]; omega
  unfold inspect_handshake
  simp only [hnh, hb3, if_false]
  repeat' split
  all_goals simp [forward_inspected, forward_server_error_inspected]

/-- What a handshake-phase call does with any read of at least 4 bytes: byte 3
is read as the sequence number; a mismatch with `*curr_pktnr + 1` (when
`*curr_pktnr > 0`) rejects the bytes; otherwise byte 4 is read as the error
marker and, for bytes without marker and with a sequence number other than 1,
a successful write stores byte 3 in `*curr_pktnr`. -/
theorem copy_packets_inspects (mp : MysqlProtocol) (so : SocketOperations)
    (sender receiver : Int) (s : Session) (from_server : Bool) (pending : List Nat)
    (seqno : Nat)
    (hhd : s.handshake_done = false) (hp2 : s.curr_pktnr ≠ 2)
    (hread : so.read = .data pending)
    (hlen : 4 ≤ (read_bytes pending s.buffer).length)
    (hseq : (read_bytes pending s.buffer)[3]? = some seqno) :
    3 ∈ (copy_packets mp so sender receiver true s from_server).inspected ∧
    (0 < s.curr_pktnr → s.curr_pktnr < INT_MAX → (seqno : Int) ≠ s.curr_pktnr + 1 →
      (copy_packets mp so sender receiver true s from_server).exit = .returned (-1) ∧
      (copy_packets mp so sender receiver true s from_server).writes = [] ∧
      (copy_packets mp so sender receiver true s from_server).log
        = [.incorrect_packet_number seqno]) ∧
    (∀ b4, (buffer_after_read pending s.buffer)[4]? = some b4 →
      (s.curr_pktnr ≤ 0 ∨ (seqno : Int) = s.curr_pktnr + 1) → seqno < 256 →
      4 ∈ (copy_packets mp so sender receiver true s from_server).inspected ∧
      (b4 ≠ 0xff → seqno ≠ 1 → so.write_all = .ok →
        (copy_packets mp so sender receiver true s from_server).exit = .returned 0 ∧
        (copy_packets mp so sender receiver true s from_server).writes
          = [(receiver, read_bytes pending s.buffer)] ∧
        (copy_packets mp so sender receiver true s from_server).curr_pktnr = seqno)) := by
  have hb3 : (buffer_after_read pending s.buffer)[3]? = some seqno := by
    rw [buffer_after_read_get _ _ 3 (by omega), hseq]
  have hn0 : (read_bytes pending s.buffer).length ≠ 0 := by omega
  have hbuf : ¬ s.buffer = [] := buffer_ne_nil_of_read _ _ hn0
  have hnh : ¬ (read_bytes pending s.buffer).length < kHeaderSize := by
    simp only [kHeaderSize]; omega
  have htake := buffer_after_read_take pending s.buffer
  refine ⟨?_, ?_, ?_⟩
  · rw [copy_packets_handshake_eq mp so sender receiver s from_server pending hhd hp2 hread
      hn0]
    exact inspect_handshake_reads_seqno mp so receiver _ s.curr_pktnr _ seqno hlen hb3
  · intro hpos hmax hne
    have hov : ¬ INT_MAX < s.curr_pktnr + 1 := by omega
    simp [copy_packets, hbuf, inspect_handshake, hhd, hp2, hread, hn0, hnh, hb3, hov, hpos, hne]
  · intro b4 hb4 hpass hbyte
    have hov : ¬ (0 < s.curr_pktnr ∧ INT_MAX < s.curr_pktnr + 1) := by
      simp only [INT_MAX]; omega
    have hchk : ¬ (0 < s.curr_pktnr ∧ (seqno : Int) ≠ s.curr_pktnr + 1) := by omega
    constructor
    · have h := (inspect_handshake_seqno_passed mp so receiver
        { s with
          handshake_done := false
          buffer := buffer_after_read pending s.buffer
          exit := .returned 0
          errno := so.errno
          writes := []
          inspected := []
          log := [] }
        s.curr_pktnr (read_bytes pending s.buffer).length seqno rfl rfl hlen hb3 hov
        hchk).2 b4 hb4
      have h2 : (copy_packets mp so sender receiver true s from_server).inspected = [3, 4] := by
        simpa [copy_packets, hbuf, hhd, hp2, hread, hn0] using h
      simp [h2]
    · intro hmark hne1 hwrite
      have hne1z : ¬ ((seqno : Int) = 1) := by omega
      simp [copy_packets, hbuf, inspect_handshake, forward, hhd, hp2, hread, hn0, hnh, hb3, hb4,
        hmark, hne1z, hwrite, htake, hov, hchk]

/-! ## Short reads -/

/-- C2: in a handshake-phase call (`handshake_done` false, `*curr_pktnr ≠ 2`)
whose `read` returns 1, 2 or 3 bytes, `copy_packets` returns -1, calls
`write_all` not at all and subscripts the buffer nowhere; the in/out arguments
other than the buffer keep their values, nothing is logged and errno is left
alone, so that nothing but the buffer itself depends on the bytes. -/
theorem C2_short_header (mp : MysqlProtocol) (so : SocketOperations) (sender receiver : Int)
    (s : Session) (from_server : Bool) (pending : List Nat)
    (hhd : s.handshake_done = false) (hp2 : s.curr_pktnr ≠ 2)
    (hread : so.read = .data pending)
    (h1 : 1 ≤ (read_bytes pending s.buffer).length)
    (h3 : (read_bytes pending s.buffer).length ≤ 3) :
    copy_packets mp so sender receiver true s from_server =
      { curr_pktnr := s.curr_pktnr
        handshake_done := false
        report_bytes_read := s.report_bytes_read
        buffer := buffer_after_read pending s.buffer
        exit := .returned (-1)
        errno := so.errno
        writes := []
        inspected := []
        log := [] } := by
  have hn0 : (read_bytes pending s.buffer).length ≠ 0 := by omega
  have hbuf : ¬ s.buffer = [] := buffer_ne_nil_of_read _ _ hn0
  have hnh : (read_bytes pending s.buffer).length < kHeaderSize := by
    simp only [kHeaderSize]; omega
  simp [copy_packets, hbuf, inspect_handshake, hhd, hp2, hread, hn0, hnh]

/-- C2 at a three-byte read in the initial state. -/
theorem C2_short_header_witness :
    copy_packets spec_protocol (demo_call [4, 0, 0] false).so 10 11 true
        (demo_session 0 false) false =
      { curr_pktnr := 0
        handshake_done := false
        report_bytes_read := 0
        buffer := buffer_after_read [4, 0, 0] (demo_session 0 false).buffer
        exit := .returned (-1)
        errno := 0
        writes := []
        inspected := []
        log := [] } :=
  C2_short_header spec_protocol (demo_call [4, 0, 0] false).so 10 11
    (demo_session 0 false) false [4, 0, 0]
    (by decide) (by decide) (by decide) (by decide) (by decide)

/-! ## Sequence numbers during the handshake -/

/-- C1, as stated, fails: a server greeting with seqno 0 is forwarded and leaves
`*curr_pktnr = 0`; the client's handshake response with seqno 3 that follows is
not rejected: the call returns 0, the eight bytes are written to the server and
`*curr_pktnr` becomes 3. -/
theorem C1_counterexample :
    (run_calls spec_protocol (demo_session 0 false)
        [demo_call [1, 0, 0, 0, 10] true, demo_call [4, 0, 0, 3, 5, 162, 0, 0] false]).map
      (fun o => o.exit) = [.returned 0, .returned 0] ∧
    (run_calls spec_protocol (demo_session 0 false)
        [demo_call [1, 0, 0, 0, 10] true, demo_call [4, 0, 0, 3, 5, 162, 0, 0] false]).map
      (fun o => o.writes) = [[(11, [1, 0, 0, 0, 10])], [(11, [4, 0, 0, 3, 5, 162, 0, 0])]] ∧
    (run_calls spec_protocol (demo_session 0 false)
        [demo_call [1, 0, 0, 0, 10] true, demo_call [4, 0, 0, 3, 5, 162, 0, 0] false]).map
      (fun o => o.curr_pktnr) = [0, 3] ∧
    (run_calls spec_protocol (demo_session 0 false)
        [demo_call [1, 0, 0, 0, 10] true, demo_call [4, 0, 0, 3, 5, 162, 0, 0] false]).map
      (fun o => o.handshake_done) = [false, false] := by
  decide

/-- C1, amended: in a handshake-phase call (`handshake_done` false,
`*curr_pktnr = p`, `p ≠ 2`) with `0 < p < INT_MAX` that reads at least 4 bytes
whose header seqno differs from `p + 1`, `copy_packets` logs the incorrect
packet number, returns -1 and calls `write_all` not at all. (For `p ≤ 0` line 84
skips the comparison.) -/
theorem C1_seqno_enforced (mp : MysqlProtocol) (so : SocketOperations) (sender receiver : Int)
    (s : Session) (from_server : Bool) (pending : List Nat) (seqno : Nat)
    (hhd : s.handshake_done = false) (hp2 : s.curr_pktnr ≠ 2)
    (hpos : 0 < s.curr_pktnr) (hmax : s.curr_pktnr < INT_MAX)
    (hread : so.read = .data pending)
    (hlen : 4 ≤ (read_bytes pending s.buffer).length)
    (hseq : (read_bytes pending s.buffer)[3]? = some seqno)
    (hne : (seqno : Int) ≠ s.curr_pktnr + 1) :
    (copy_packets mp so sender receiver true s from_server).exit = .returned (-1) ∧
    (copy_packets mp so sender receiver true s from_server).writes = [] ∧
    (copy_packets mp so sender receiver true s from_server).log
      = [.incorrect_packet_number seqno] := by
  have hb3 : (buffer_after_read pending s.buffer)[3]? = some seqno := by
    rw [buffer_after_read_get _ _ 3 (by omega), hseq]
  have hn0 : (read_bytes pending s.buffer).length ≠ 0 := by omega
  have hbuf : ¬ s.buffer = [] := buffer_ne_nil_of_read _ _ hn0
  have hnh : ¬ (read_bytes pending s.buffer).length < kHeaderSize := by
    simp only [kHeaderSize]; omega
  have hov : ¬ INT_MAX < s.curr_pktnr + 1 := by omega
  simp [copy_packets, hbuf, inspect_handshake, hhd, hp2, hread, hn0, hnh, hb3, hov, hpos, hne]

/-- C1, amended, at `p = 1` and a response with seqno 3. -/
theorem C1_seqno_enforced_witness :
    (copy_packets spec_protocol (demo_call [4, 0, 0, 3, 5, 162, 0, 0] false).so 10 11 true
        (demo_session 1 false) false).exit = .returned (-1) ∧
    (copy_packets spec_protocol (demo_call [4, 0, 0, 3, 5, 162, 0, 0] false).so 10 11 true
        (demo_session 1 false) false).writes = [] ∧
    (copy_packets spec_protocol (demo_call [4, 0, 0, 3, 5, 162, 0, 0] false).so 10 11 true
        (demo_session 1 false) false).log = [.incorrect_packet_number (3 : Nat)] :=
  C1_seqno_enforced spec_protocol (demo_call [4, 0, 0, 3, 5, 162, 0, 0] false).so 10 11
    (demo_session 1 false) false [4, 0, 0, 3, 5, 162, 0, 0] 3
    (by decide) (by decide) (by decide) (by decide) (by decide) (by decide) (by decide)
    (by decide)

/-- C8, as stated, fails at the wrap: with `*curr_pktnr = 255` a packet whose
seqno is `(255 + 1) mod 256 = 0` is rejected by the sequence check: the call
logs the incorrect packet number 0, returns -1 and writes nothing. -/
theorem C8_counterexample :
    ((255 + 1 : Int) % 256 = 0) ∧
    (copy_packets spec_protocol (demo_call [1, 0, 0, 0, 3] false).so 10 11 true
        (demo_session 255 false) false).exit = .returned (-1) ∧
    (copy_packets spec_protocol (demo_call [1, 0, 0, 0, 3] false).so 10 11 true
        (demo_session 255 false) false).log = [.incorrect_packet_number 0] ∧
    (copy_packets spec_protocol (demo_call [1, 0, 0, 0, 3] false).so 10 11 true
        (demo_session 255 false) false).writes = [] := by
  decide

/-- C8, amended: in a handshake-phase call with `*curr_pktnr = p`, `p ≠ 2` and
`p ≤ 254`, a packet of at least 4 bytes whose seqno is `(p + 1) mod 256` is not
rejected by the sequence check: no "incorrect packet number" is logged, and when
`buffer[4]` exists the routine goes on to read it. -/
theorem C8_seqno_successor_accepted (mp : MysqlProtocol) (so : SocketOperations)
    (sender receiver : Int) (s : Session) (from_server : Bool) (pending : List Nat)
    (seqno : Nat)
    (hhd : s.handshake_done = false) (hp2 : s.curr_pktnr ≠ 2) (hp : s.curr_pktnr ≤ 254)
    (hread : so.read = .data pending)
    (hlen : 4 ≤ (read_bytes pending s.buffer).length)
    (hseq : (read_bytes pending s.buffer)[3]? = some seqno)
    (hsucc : (seqno : Int) = (s.curr_pktnr + 1) % 256) :
    (∀ k, LogEntry.incorrect_packet_number k
        ∉ (copy_packets mp so sender receiver true s from_server).log) ∧
    (∀ b4, (buffer_after_read pending s.buffer)[4]? = some b4 →
      (copy_packets mp so sender receiver true s from_server).inspected = [3, 4]) := by
  have hb3 : (buffer_after_read pending s.buffer)[3]? = some seqno := by
    rw [buffer_after_read_get _ _ 3 (by omega), hseq]
  have hn0 : (read_bytes pending s.buffer).length ≠ 0 := by omega
  have hbuf : ¬ s.buffer = [] := buffer_ne_nil_of_read _ _ hn0
  have hov : ¬ (0 < s.curr_pktnr ∧ INT_MAX < s.curr_pktnr + 1) := by
    simp only [INT_MAX]; omega
  have hchk : ¬ (0 < s.curr_pktnr ∧ (seqno : Int) ≠ s.curr_pktnr + 1) := by omega
  have h := inspect_handshake_seqno_passed mp so receiver
    { s with
      handshake_done := false
      buffer := buffer_after_read pending s.buffer
      exit := .returned 0
      errno := so.errno
      writes := []
      inspected := []
      log := [] }
    s.curr_pktnr (read_bytes pending s.buffer).length seqno rfl rfl hlen hb3 hov hchk
  simpa [copy_packets, hbuf, hhd, hp2, hread, hn0] using h

/-- C8, amended, at `p = 254` and seqno 255. -/
theorem C8_seqno_successor_accepted_witness :
    (∀ k, LogEntry.incorrect_packet_number k
        ∉ (copy_packets spec_protocol (demo_call [1, 0, 0, 255, 3] false).so 10 11 true
            (demo_session 254 false) false).log) ∧
    (copy_packets spec_protocol (demo_call [1, 0, 0, 255, 3] false).so 10 11 true
        (demo_session 254 false) false).inspected = [3, 4] :=
  have h := C8_seqno_successor_accepted spec_protocol
    (demo_call [1, 0, 0, 255, 3] false).so 10 11
    (demo_session 254 false) false [1, 0, 0, 255, 3] 255
    (by decide) (by decide) (by decide) (by decide) (by decide) (by decide) (by decide)
  ⟨h.1, h.2 3 (by decide)⟩

/-- C10, as stated, fails: on the first call of a session (`handshake_done`
false, `*curr_pktnr = 0`) a packet with header seqno 5 is not rejected: the call
returns 0, the bytes are written to the receiver and `*curr_pktnr` becomes 5. -/
theorem C10_counterexample :
    (copy_packets spec_protocol (demo_call [1, 0, 0, 5, 10] true).so 10 11 true
        (demo_session 0 false) true).exit = .returned 0 ∧
    (copy_packets spec_protocol (demo_call [1, 0, 0, 5, 10] true).so 10 11 true
        (demo_session 0 false) true).writes = [(11, [1, 0, 0, 5, 10])] ∧
    (copy_packets spec_protocol (demo_call [1, 0, 0, 5, 10] true).so 10 11 true
        (demo_session 0 false) true).curr_pktnr = 5 := by
  decide

/-- C10, amended: on the first call of a session (`handshake_done` false,
`*curr_pktnr = 0`) the header seqno of a packet of at least 4 bytes is read but
not checked: no "incorrect packet number" is logged whatever the seqno is, and
a packet without error marker whose seqno is not 1 is forwarded when `write_all`
succeeds: the call returns 0 and stores the seqno in `*curr_pktnr`. -/
theorem C10_initial_seqno_unchecked (mp : MysqlProtocol) (so : SocketOperations)
    (sender receiver : Int) (s : Session) (from_server : Bool) (pending : List Nat)
    (seqno : Nat)
    (hhd : s.handshake_done = false) (hp0 : s.curr_pktnr = 0)
    (hread : so.read = .data pending)
    (hlen : 4 ≤ (read_bytes pending s.buffer).length)
    (hseq : (read_bytes pending s.buffer)[3]? = some seqno) :
    (∀ k, LogEntry.incorrect_packet_number k
        ∉ (copy_packets mp so sender receiver true s from_server).log) ∧
    (∀ b4, (buffer_after_read pending s.buffer)[4]? = some b4 → b4 ≠ 0xff → seqno ≠ 1 →
      so.write_all = .ok →
      (copy_packets mp so sender receiver true s from_server).exit = .returned 0 ∧
      (copy_packets mp so sender receiver true s from_server).writes
        = [(receiver, read_bytes pending s.buffer)] ∧
      (copy_packets mp so sender receiver true s from_server).curr_pktnr = seqno) := by
  have hb3 : (buffer_after_read pending s.buffer)[3]? = some seqno := by
    rw [buffer_after_read_get _ _ 3 (by omega), hseq]
  have hn0 : (read_bytes pending s.buffer).length ≠ 0 := by omega
  have hbuf : ¬ s.buffer = [] := buffer_ne_nil_of_read _ _ hn0
  have hnh : ¬ (read_bytes pending s.buffer).length < kHeaderSize := by
    simp only [kHeaderSize]; omega
  have hov : ¬ (0 < s.curr_pktnr ∧ INT_MAX < s.curr_pktnr + 1) := by omega
  have hchk : ¬ (0 < s.curr_pktnr ∧ (seqno : Int) ≠ s.curr_pktnr + 1) := by omega
  have htake := buffer_after_read_take pending s.buffer
  constructor
  · have h := (inspect_handshake_seqno_passed mp so receiver
      { s with
        handshake_done := false
        buffer := buffer_after_read pending s.buffer
        exit := .returned 0
        errno := so.errno
        writes := []
        inspected := []
        log := [] }
      s.curr_pktnr (read_bytes pending s.buffer).length seqno rfl rfl hlen hb3 hov hchk).1
    simpa [copy_packets, hbuf, hhd, hp0, hread, hn0] using h
  · intro b4 hb4 hmark hne1 hwrite
    have hne1z : ¬ ((seqno : Int) = 1) := by omega
    simp [copy_packets, hbuf, inspect_handshake, forward, hhd, hp0, hread, hn0, hnh, hb3, hb4,
      hmark, hne1z, hwrite, htake]

/-- C10, amended, at a first packet with seqno 5. -/
theorem C10_initial_seqno_unchecked_witness :
    (∀ k, LogEntry.incorrect_packet_number k
        ∉ (copy_packets spec_protocol (demo_call [1, 0, 0, 5, 10] true).so 10 11 true
            (demo_session 0 false) true).log) ∧
    (copy_packets spec_protocol (demo_call [1, 0, 0, 5, 10] true).so 10 11 true
        (demo_session 0 false) true).exit = .returned 0 ∧
    (copy_packets spec_protocol (demo_call [1, 0, 0, 5, 10] true).so 10 11 true
        (demo_session 0 false) true).writes = [(11, [1, 0, 0, 5, 10])] ∧
    (copy_packets spec_protocol (demo_call [1, 0, 0, 5, 10] true).so 10 11 true
        (demo_session 0 false) true).curr_pktnr = (5 : Nat) :=
  have h := C10_initial_seqno_unchecked spec_protocol
    (demo_call [1, 0, 0, 5, 10] true).so 10 11
    (demo_session 0 false) true [1, 0, 0, 5, 10] 5
    (by decide) (by decide) (by decide) (by decide) (by decide)
  ⟨h.1, h.2 10 (by decide) (by decide) (by decide) (by decide)⟩

/-! ## Detection of the TLS upgrade -/

/-- C3: a handshake-phase call with `*curr_pktnr = 0` reads at least 4 bytes with
header seqno 1 and a first payload byte other than 0xFF; the packet constructs
and its `get_int<uint32_t>(4)` is the little-endian value of buffer bytes 4..7.
If `write_all` succeeds the call returns 0, has written exactly the bytes read
to the receiver, and leaves `*curr_pktnr = 2` when bit 0x0800 of that value is
set and `*curr_pktnr = 1` when it is clear. -/
theorem C3_tls_upgrade_detection (mp : MysqlProtocol) (so : SocketOperations)
    (sender receiver : Int) (s : Session) (from_server : Bool) (pending : List Nat)
    (b4 : Nat) (pkt : RoutingProtocolBuffer)
    (hhd : s.handshake_done = false) (hp0 : s.curr_pktnr = 0)
    (hread : so.read = .data pending)
    (hlen : 4 ≤ (read_bytes pending s.buffer).length)
    (hseq : (read_bytes pending s.buffer)[3]? = some 1)
    (hb4 : (buffer_after_read pending s.buffer)[4]? = some b4) (hmark : b4 ≠ 0xff)
    (hpkt : mp.Packet (buffer_after_read pending s.buffer) = some pkt)
    (hcap : mp.get_int_uint32 pkt 4
      = some (le_value (((buffer_after_read pending s.buffer).drop 4).take 4)))
    (hwrite : so.write_all = .ok) :
    (copy_packets mp so sender receiver true s from_server).exit = .returned 0 ∧
    (copy_packets mp so sender receiver true s from_server).writes
      = [(receiver, read_bytes pending s.buffer)] ∧
    (copy_packets mp so sender receiver true s from_server).curr_pktnr
      = (if (le_value (((buffer_after_read pending s.buffer).drop 4).take 4)).testBit 11
          then 2 else 1) := by
  have hb3 : (buffer_after_read pending s.buffer)[3]? = some 1 := by
    rw [buffer_after_read_get _ _ 3 (by omega), hseq]
  have hn0 : (read_bytes pending s.buffer).length ≠ 0 := by omega
  have hbuf : ¬ s.buffer = [] := buffer_ne_nil_of_read _ _ hn0
  have hnh : ¬ (read_bytes pending s.buffer).length < kHeaderSize := by
    simp only [kHeaderSize]; omega
  have htake := buffer_after_read_take pending s.buffer
  by_cases hbit : (le_value (((buffer_after_read pending s.buffer).drop 4).take 4)).testBit 11
      = true
  · have hland := (kClientSSL_set_iff _).2 hbit
    simp [copy_packets, hbuf, inspect_handshake, forward, hhd, hp0, hread, hn0, hnh, hb3, hb4,
      hmark, hpkt, hcap, hwrite, htake, hland, hbit]
  · have hland : ¬ (le_value (((buffer_after_read pending s.buffer).drop 4).take 4)
        &&& kClientSSL ≠ 0) := fun h => hbit ((kClientSSL_set_iff _).1 h)
    simp [copy_packets, hbuf, inspect_handshake, forward, hhd, hp0, hread, hn0, hnh, hb3, hb4,
      hmark, hpkt, hcap, hwrite, htake, hland, hbit]

/-- C3 at a handshake response whose capability flags `0xAA05` have bit 0x0800
set: the call leaves `*curr_pktnr = 2`. -/
theorem C3_tls_upgrade_detection_witness :
    (copy_packets spec_protocol (demo_call [4, 0, 0, 1, 5, 170, 0, 0] false).so 10 11 true
        (demo_session 0 false) false).exit = .returned 0 ∧
    (copy_packets spec_protocol (demo_call [4, 0, 0, 1, 5, 170, 0, 0] false).so 10 11 true
        (demo_session 0 false) false).writes = [(11, [4, 0, 0, 1, 5, 170, 0, 0])] ∧
    (copy_packets spec_protocol (demo_call [4, 0, 0, 1, 5, 170, 0, 0] false).so 10 11 true
        (demo_session 0 false) false).curr_pktnr = 2 :=
  C3_tls_upgrade_detection spec_protocol (demo_call [4, 0, 0, 1, 5, 170, 0, 0] false).so 10 11
    (demo_session 0 false) false [4, 0, 0, 1, 5, 170, 0, 0] 5
    (buffer_after_read [4, 0, 0, 1, 5, 170, 0, 0] (demo_session 0 false).buffer)
    (by decide) (by decide) (by decide) (by decide) (by decide) (by decide) (by decide)
    (by decide) (by decide) (by decide)

/-! ## Passthrough after the TLS upgrade -/

/-- C4: after a call that left `*curr_pktnr = 2` (as the detection of CLIENT_SSL
does), every following call on the session ends with `handshake_done` true and
subscripts the buffer nowhere; if its sender is readable and the `read` yields
`n > 0` bytes, whatever they are, exactly these bytes are handed to `write_all`
on the receiver, and if that succeeds the call returns 0 and reports `n`. -/
theorem C4_tls_passthrough (mp : MysqlProtocol) (c0 : Call) (s0 : Session)
    (calls : List Call) (hdet : (c0.run mp s0).curr_pktnr = 2) :
    ∀ p ∈ calls.zip (run_calls mp (c0.run mp s0).toSession calls),
      p.2.handshake_done = true ∧ p.2.inspected = [] ∧
      (p.1.sender_is_readable = true → ∀ pending, p.1.so.read = .data pending →
        0 < (read_bytes pending s0.buffer).length →
        p.2.writes = [(p.1.receiver, read_bytes pending s0.buffer)] ∧
        (p.1.so.write_all = .ok →
          p.2.exit = .returned 0 ∧
          p.2.report_bytes_read = (read_bytes pending s0.buffer).length)) :=
  run_calls_relay mp s0.buffer calls (c0.run mp s0).toSession (Or.inr hdet)
    (copy_packets_buffer_length mp c0.so c0.sender c0.receiver c0.sender_is_readable s0
      c0.from_server)

/-- C4 on a session whose handshake response asked for TLS: the call that
follows reads the three bytes `ff 03 07` and forwards them. -/
theorem C4_tls_passthrough_witness :
    ((demo_call [255, 3, 7] false).run spec_protocol
        ((demo_call [4, 0, 0, 1, 5, 170, 0, 0] false).run spec_protocol
          (demo_session 0 false)).toSession).handshake_done = true ∧
    ((demo_call [255, 3, 7] false).run spec_protocol
        ((demo_call [4, 0, 0, 1, 5, 170, 0, 0] false).run spec_protocol
          (demo_session 0 false)).toSession).writes = [(11, [255, 3, 7])] ∧
    ((demo_call [255, 3, 7] false).run spec_protocol
        ((demo_call [4, 0, 0, 1, 5, 170, 0, 0] false).run spec_protocol
          (demo_session 0 false)).toSession).exit = .returned 0 :=
  have h := C4_tls_passthrough spec_protocol (demo_call [4, 0, 0, 1, 5, 170, 0, 0] false)
    (demo_session 0 false) [demo_call [255, 3, 7] false] (by decide)
    (demo_call [255, 3, 7] false,
      (demo_call [255, 3, 7] false).run spec_protocol
        ((demo_call [4, 0, 0, 1, 5, 170, 0, 0] false).run spec_protocol
          (demo_session 0 false)).toSession)
    (by simp [run_calls])
  ⟨h.1, (h.2.2 rfl [255, 3, 7] rfl (by decide)).1,
    ((h.2.2 rfl [255, 3, 7] rfl (by decide)).2 rfl).1⟩

/-! ## Server error during the handshake -/

/-- C5, as stated, fails for a library whose `ErrorPacket` constructor throws:
line 97 stands in no `try` block. With the truncated error packet of 9 bytes
(seqno 0, 0xFF in `buffer[4]`) read in the initial state, the `packet_error`
of the constructor leaves `copy_packets`: nothing is handed to `write_all`, the
call does not return 0, and `*curr_pktnr` and `*report_bytes_read` stay 0. -/
theorem C5_counterexample :
    (read_bytes demo_truncated_error_packet (demo_session 0 false).buffer).length = 9 ∧
    (buffer_after_read demo_truncated_error_packet (demo_session 0 false).buffer)[3]?
      = some 0 ∧
    (buffer_after_read demo_truncated_error_packet (demo_session 0 false).buffer)[4]?
      = some 0xff ∧
    (copy_packets framing_protocol (demo_call demo_truncated_error_packet true).so 10 11 true
        (demo_session 0 false) true).exit = .packet_error_thrown ∧
    (copy_packets framing_protocol (demo_call demo_truncated_error_packet true).so 10 11 true
        (demo_session 0 false) true).writes = [] ∧
    (copy_packets framing_protocol (demo_call demo_truncated_error_packet true).so 10 11 true
        (demo_session 0 false) true).curr_pktnr = 0 ∧
    (copy_packets framing_protocol (demo_call demo_truncated_error_packet true).so 10 11 true
        (demo_session 0 false) true).report_bytes_read = 0 := by
  decide

/-- C5, amended: a handshake-phase call reads `n ≥ 4` bytes whose seqno passes
the check of line 84 and finds 0xFF in `buffer[4]`. When the `ErrorPacket`
constructor of line 97 returns for the `n` bytes read, the serialisation of the
packet is the one thing handed to `write_all` on the receiver (the `n` bytes
read, verbatim, when the packet serialises to the bytes it was built from), and
whatever `write_all` answers the call returns 0 with `*curr_pktnr = 2` and
`*report_bytes_read = n`. When the constructor throws `packet_error`, the
exception leaves `copy_packets`: `write_all` is not called and `*curr_pktnr`
and `*report_bytes_read` keep their values. -/
theorem C5_server_error_passthrough (mp : MysqlProtocol) (so : SocketOperations)
    (sender receiver : Int) (s : Session) (from_server : Bool) (pending : List Nat)
    (seqno : Nat)
    (hhd : s.handshake_done = false) (hp2 : s.curr_pktnr ≠ 2)
    (hread : so.read = .data pending)
    (hlen : 4 ≤ (read_bytes pending s.buffer).length)
    (hseq : (read_bytes pending s.buffer)[3]? = some seqno) (hbyte : seqno < 256)
    (hpass : s.curr_pktnr ≤ 0 ∨ (seqno : Int) = s.curr_pktnr + 1)
    (hmark : (buffer_after_read pending s.buffer)[4]? = some 0xff) :
    (∀ server_error, mp.ErrorPacket (read_bytes pending s.buffer) = some server_error →
      (copy_packets mp so sender receiver true s from_server).exit = .returned 0 ∧
      (copy_packets mp so sender receiver true s from_server).writes
        = [(receiver, server_error)] ∧
      (copy_packets mp so sender receiver true s from_server).curr_pktnr = 2 ∧
      (copy_packets mp so sender receiver true s from_server).report_bytes_read
        = (read_bytes pending s.buffer).length) ∧
    (mp.ErrorPacket (read_bytes pending s.buffer) = some (read_bytes pending s.buffer) →
      (copy_packets mp so sender receiver true s from_server).writes
        = [(receiver, read_bytes pending s.buffer)]) ∧
    (mp.ErrorPacket (read_bytes pending s.buffer) = none →
      (copy_packets mp so sender receiver true s from_server).exit = .packet_error_thrown ∧
      (copy_packets mp so sender receiver true s from_server).writes = [] ∧
      (copy_packets mp so sender receiver true s from_server).curr_pktnr = s.curr_pktnr ∧
      (copy_packets mp so sender receiver true s from_server).report_bytes_read
        = s.report_bytes_read) := by
  have hb3 : (buffer_after_read pending s.buffer)[3]? = some seqno := by
    rw [buffer_after_read_get _ _ 3 (by omega), hseq]
  have hn0 : (read_bytes pending s.buffer).length ≠ 0 := by omega
  have hbuf : ¬ s.buffer = [] := buffer_ne_nil_of_read _ _ hn0
  have hnh : ¬ (read_bytes pending s.buffer).length < kHeaderSize := by
    simp only [kHeaderSize]; omega
  have hov : ¬ (0 < s.curr_pktnr ∧ INT_MAX < s.curr_pktnr + 1) := by
    simp only [INT_MAX]; omega
  have hchk : ¬ (0 < s.curr_pktnr ∧ (seqno : Int) ≠ s.curr_pktnr + 1) := by omega
  have htake := buffer_after_read_take pending s.buffer
  have key : ∀ server_error,
      mp.ErrorPacket (read_bytes pending s.buffer) = some server_error →
      (copy_packets mp so sender receiver true s from_server).exit = .returned 0 ∧
      (copy_packets mp so sender receiver true s from_server).writes
        = [(receiver, server_error)] ∧
      (copy_packets mp so sender receiver true s from_server).curr_pktnr = 2 ∧
      (copy_packets mp so sender receiver true s from_server).report_bytes_read
        = (read_bytes pending s.buffer).length := by
    intro server_error herr
    cases hw : so.write_all <;>
      simp [copy_packets, hbuf, inspect_handshake, forward_server_error, hhd, hp2, hread, hn0,
        hnh, hb3, hov, hchk, hmark, htake, herr, hw]
  refine ⟨key, fun herr => (key _ herr).2.1, ?_⟩
  intro herr
  simp [copy_packets, hbuf, inspect_handshake, forward_server_error, hhd, hp2, hread, hn0,
    hnh, hb3, hov, hchk, hmark, htake, herr]

/-- C5, amended, at the error packet 1045 `#28000 no` sent in place of the
greeting, while the write to the client fails with errno 32: the 15 bytes are
handed to `write_all` and the call returns 0. -/
theorem C5_server_error_passthrough_witness :
    (copy_packets spec_protocol (demo_failing_write demo_error_packet) 10 11 true
        (demo_session 0 false) true).exit = .returned 0 ∧
    (copy_packets spec_protocol (demo_failing_write demo_error_packet) 10 11 true
        (demo_session 0 false) true).writes = [(11, demo_error_packet)] ∧
    (copy_packets spec_protocol (demo_failing_write demo_error_packet) 10 11 true
        (demo_session 0 false) true).curr_pktnr = 2 ∧
    (copy_packets spec_protocol (demo_failing_write demo_error_packet) 10 11 true
        (demo_session 0 false) true).report_bytes_read = 15 :=
  (C5_server_error_passthrough spec_protocol (demo_failing_write demo_error_packet) 10 11
    (demo_session 0 false) true demo_error_packet 0
    (by decide) (by decide) (by decide) (by decide) (by decide) (by decide) (by decide)
    (by decide)).1 demo_error_packet (by decide)

/-- C6, as stated, fails: the call that receives the error packet 1045
`#28000 no` in the initial state forwards it and returns 0 with
`*curr_pktnr = 2`, and `handshake_done` is still false. -/
theorem C6_counterexample :
    (copy_packets spec_protocol (demo_call demo_error_packet true).so 10 11 true
        (demo_session 0 false) true).exit = .returned 0 ∧
    (copy_packets spec_protocol (demo_call demo_error_packet true).so 10 11 true
        (demo_session 0 false) true).writes = [(11, demo_error_packet)] ∧
    (copy_packets spec_protocol (demo_call demo_error_packet true).so 10 11 true
        (demo_session 0 false) true).curr_pktnr = 2 ∧
    (copy_packets spec_protocol (demo_call demo_error_packet true).so 10 11 true
        (demo_session 0 false) true).handshake_done = false := by
  decide

/-- C6, amended: a handshake-phase call that receives a server error packet
(seqno passing line 84, 0xFF in `buffer[4]`, `ErrorPacket` constructible) returns
0 with `*curr_pktnr = 2` and `handshake_done` still false; every call of
`copy_packets` made next on the session ends with `handshake_done` true. -/
theorem C6_server_error_marks_done (mp : MysqlProtocol) (so : SocketOperations)
    (sender receiver : Int) (s : Session) (from_server : Bool) (pending : List Nat)
    (seqno : Nat) (server_error : RoutingProtocolBuffer)
    (hhd : s.handshake_done = false) (hp2 : s.curr_pktnr ≠ 2)
    (hread : so.read = .data pending)
    (hlen : 4 ≤ (read_bytes pending s.buffer).length)
    (hseq : (read_bytes pending s.buffer)[3]? = some seqno) (hbyte : seqno < 256)
    (hpass : s.curr_pktnr ≤ 0 ∨ (seqno : Int) = s.curr_pktnr + 1)
    (hmark : (buffer_after_read pending s.buffer)[4]? = some 0xff)
    (herr : mp.ErrorPacket (read_bytes pending s.buffer) = some server_error) :
    (copy_packets mp so sender receiver true s from_server).exit = .returned 0 ∧
    (copy_packets mp so sender receiver true s from_server).curr_pktnr = 2 ∧
    (copy_packets mp so sender receiver true s from_server).handshake_done = false ∧
    ∀ next : Call,
      (next.run mp
        (copy_packets mp so sender receiver true s from_server).toSession).handshake_done
        = true := by
  have hb3 : (buffer_after_read pending s.buffer)[3]? = some seqno := by
    rw [buffer_after_read_get _ _ 3 (by omega), hseq]
  have hn0 : (read_bytes pending s.buffer).length ≠ 0 := by omega
  have hbuf : ¬ s.buffer = [] := buffer_ne_nil_of_read _ _ hn0
  have hnh : ¬ (read_bytes pending s.buffer).length < kHeaderSize := by
    simp only [kHeaderSize]; omega
  have hov : ¬ (0 < s.curr_pktnr ∧ INT_MAX < s.curr_pktnr + 1) := by
    simp only [INT_MAX]; omega
  have hchk : ¬ (0 < s.curr_pktnr ∧ (seqno : Int) ≠ s.curr_pktnr + 1) := by omega
  have htake := buffer_after_read_take pending s.buffer
  have h2 : (copy_packets mp so sender receiver true s from_server).curr_pktnr = 2 := by
    cases hw : so.write_all <;>
      simp [copy_packets, hbuf, inspect_handshake, forward_server_error, hhd, hp2, hread, hn0,
        hnh, hb3, hov, hchk, hmark, htake, herr, hw]
  refine ⟨?_, h2, ?_, ?_⟩
  · cases hw : so.write_all <;>
      simp [copy_packets, hbuf, inspect_handshake, forward_server_error, hhd, hp2, hread, hn0,
        hnh, hb3, hov, hchk, hmark, htake, herr, hw]
  · cases hw : so.write_all <;>
      simp [copy_packets, hbuf, inspect_handshake, forward_server_error, hhd, hp2, hread, hn0,
        hnh, hb3, hov, hchk, hmark, htake, herr, hw]
  · intro next
    exact (copy_packets_relay mp next.so next.sender next.receiver next.sender_is_readable
      _ next.from_server (Or.inr h2)).1

/-- C6, amended, at the error packet 1045 `#28000 no` in the initial state. -/
theorem C6_server_error_marks_done_witness :
    (copy_packets spec_protocol (demo_call demo_error_packet true).so 10 11 true
        (demo_session 0 false) true).exit = .returned 0 ∧
    (copy_packets spec_protocol (demo_call demo_error_packet true).so 10 11 true
        (demo_session 0 false) true).curr_pktnr = 2 ∧
    (copy_packets spec_protocol (demo_call demo_error_packet true).so 10 11 true
        (demo_session 0 false) true).handshake_done = false ∧
    ∀ next : Call,
      (next.run spec_protocol
        (copy_packets spec_protocol (demo_call demo_error_packet true).so 10 11 true
          (demo_session 0 false) true).toSession).handshake_done = true :=
  C6_server_error_marks_done spec_protocol (demo_call demo_error_packet true).so
    10 11 (demo_session 0 false) true demo_error_packet 0 demo_error_packet
    (by decide) (by decide) (by decide) (by decide) (by decide) (by decide) (by decide)
    (by decide) (by decide)

/-! ## Relay after the handshake -/

/-- C7: a call entered with `handshake_done` true whose sender is readable,
whose `read` yields `n > 0` bytes and whose `write_all` succeeds hands exactly
the bytes read to `write_all` on the receiver, subscripts the buffer nowhere,
logs nothing, returns 0 with `*report_bytes_read = n`, `handshake_done` true
and `*curr_pktnr = 0`. The whole outcome is given; the bytes occur in it only
as the buffer content and as the data written. -/
theorem C7_relay_fidelity (mp : MysqlProtocol) (so : SocketOperations)
    (sender receiver : Int) (s : Session) (from_server : Bool) (pending : List Nat)
    (hhd : s.handshake_done = true)
    (hread : so.read = .data pending)
    (hpos : 0 < (read_bytes pending s.buffer).length)
    (hwrite : so.write_all = .ok) :
    copy_packets mp so sender receiver true s from_server =
      { curr_pktnr := 0
        handshake_done := true
        report_bytes_read := (read_bytes pending s.buffer).length
        buffer := buffer_after_read pending s.buffer
        exit := .returned 0
        errno := so.errno
        writes := [(receiver, read_bytes pending s.buffer)]
        inspected := []
        log := [] } := by
  have hn0 : (read_bytes pending s.buffer).length ≠ 0 := by omega
  have hbuf : ¬ s.buffer = [] := buffer_ne_nil_of_read _ _ hn0
  have htake := buffer_after_read_take pending s.buffer
  simp [copy_packets, hbuf, forward, hhd, hread, hn0, hwrite, htake]

/-- C7 at a three-byte read that would fail every handshake check. -/
theorem C7_relay_fidelity_witness :
    copy_packets spec_protocol (demo_call [255, 3, 7] false).so 10 11 true
        (demo_session 0 true) false =
      { curr_pktnr := 0
        handshake_done := true
        report_bytes_read := 3
        buffer := buffer_after_read [255, 3, 7] (demo_session 0 true).buffer
        exit := .returned 0
        errno := 0
        writes := [(11, [255, 3, 7])]
        inspected := []
        log := [] } :=
  C7_relay_fidelity spec_protocol (demo_call [255, 3, 7] false).so 10 11
    (demo_session 0 true) false [255, 3, 7] (by decide) (by decide) (by decide) (by decide)

/-! ## Completion of the handshake at packet 2 -/

/-- C9: a handshake-phase call with `*curr_pktnr = 1` that reads a packet with
seqno 2 and no error marker and whose `write_all` succeeds forwards the bytes
read, returns 0 and leaves `*curr_pktnr = 2`; and every call entered with
`*curr_pktnr = 2` ends with `handshake_done` true, whatever `sender_is_readable`
is and whatever `read` and `write_all` answer. -/
theorem C9_handshake_completes_at_two (mp : MysqlProtocol) (so : SocketOperations)
    (sender receiver : Int) (s : Session) (from_server : Bool) (pending : List Nat)
    (b4 : Nat)
    (hhd : s.handshake_done = false) (hp1 : s.curr_pktnr = 1)
    (hread : so.read = .data pending)
    (hlen : 4 ≤ (read_bytes pending s.buffer).length)
    (hseq : (read_bytes pending s.buffer)[3]? = some 2)
    (hb4 : (buffer_after_read pending s.buffer)[4]? = some b4) (hmark : b4 ≠ 0xff)
    (hwrite : so.write_all = .ok) :
    ((copy_packets mp so sender receiver true s from_server).exit = .returned 0 ∧
      (copy_packets mp so sender receiver true s from_server).writes
        = [(receiver, read_bytes pending s.buffer)] ∧
      (copy_packets mp so sender receiver true s from_server).curr_pktnr = 2) ∧
    (∀ (so2 : SocketOperations) (sender2 receiver2 : Int) (readable2 : Bool)
        (s2 : Session) (from_server2 : Bool), s2.curr_pktnr = 2 →
      (copy_packets mp so2 sender2 receiver2 readable2 s2 from_server2).handshake_done
        = true) := by
  have hb3 : (buffer_after_read pending s.buffer)[3]? = some 2 := by
    rw [buffer_after_read_get _ _ 3 (by omega), hseq]
  have hn0 : (read_bytes pending s.buffer).length ≠ 0 := by omega
  have hbuf : ¬ s.buffer = [] := buffer_ne_nil_of_read _ _ hn0
  have hnh : ¬ (read_bytes pending s.buffer).length < kHeaderSize := by
    simp only [kHeaderSize]; omega
  have htake := buffer_after_read_take pending s.buffer
  constructor
  · simp [copy_packets, hbuf, inspect_handshake, forward, hhd, hp1, hread, hn0, hnh, hb3, hb4,
      hmark, hwrite, htake, INT_MAX]
  · intro so2 sender2 receiver2 readable2 s2 from_server2 h2
    exact (copy_packets_relay mp so2 sender2 receiver2 readable2 s2 from_server2
      (Or.inr h2)).1

/-- C9 at a seqno-2 packet after `*curr_pktnr = 1`. -/
theorem C9_handshake_completes_at_two_witness :
    ((copy_packets spec_protocol (demo_call [1, 0, 0, 2, 0] true).so 10 11 true
        (demo_session 1 false) true).exit = .returned 0 ∧
      (copy_packets spec_protocol (demo_call [1, 0, 0, 2, 0] true).so 10 11 true
        (demo_session 1 false) true).writes = [(11, [1, 0, 0, 2, 0])] ∧
      (copy_packets spec_protocol (demo_call [1, 0, 0, 2, 0] true).so 10 11 true
        (demo_session 1 false) true).curr_pktnr = 2) ∧
    (∀ (so2 : SocketOperations) (sender2 receiver2 : Int) (readable2 : Bool)
        (s2 : Session) (from_server2 : Bool), s2.curr_pktnr = 2 →
      (copy_packets spec_protocol so2 sender2 receiver2 readable2 s2
        from_server2).handshake_done = true) :=
  C9_handshake_completes_at_two spec_protocol (demo_call [1, 0, 0, 2, 0] true).so 10 11
    (demo_session 1 false) true [1, 0, 0, 2, 0] 0
    (by decide) (by decide) (by decide) (by decide) (by decide) (by decide) (by decide)
    (by decide)

/-! ## Packets longer than the buffer -/

/-- C11, as stated, fails: a server greeting of 24 bytes reaches a 16-byte
buffer in two reads. The second segment is inspected like a packet start
(offsets 3 and 4 are subscripted) and its byte 3, the payload byte 101, is
stored as `*curr_pktnr`; the client's handshake response with seqno 1 that
follows is then rejected as "incorrect packet number" and not forwarded. -/
theorem C11_counterexample :
    (run_calls spec_protocol (demo_session 0 false)
        [demo_call demo_long_greeting true, demo_call (demo_long_greeting.drop 16) true,
         demo_call [4, 0, 0, 1, 5, 162, 0, 0] false]).map
      (fun o => o.exit) = [.returned 0, .returned 0, .returned (-1)] ∧
    (run_calls spec_protocol (demo_session 0 false)
        [demo_call demo_long_greeting true, demo_call (demo_long_greeting.drop 16) true,
         demo_call [4, 0, 0, 1, 5, 162, 0, 0] false]).map
      (fun o => o.inspected) = [[3, 4], [3, 4], [3]] ∧
    (run_calls spec_protocol (demo_session 0 false)
        [demo_call demo_long_greeting true, demo_call (demo_long_greeting.drop 16) true,
         demo_call [4, 0, 0, 1, 5, 162, 0, 0] false]).map
      (fun o => o.curr_pktnr) = [0, 101, 101] ∧
    (run_calls spec_protocol (demo_session 0 false)
        [demo_call demo_long_greeting true, demo_call (demo_long_greeting.drop 16) true,
         demo_call [4, 0, 0, 1, 5, 162, 0, 0] false]).map
      (fun o => o.writes)
      = [[(11, demo_long_greeting.take 16)], [(11, demo_long_greeting.drop 16)], []] ∧
    (run_calls spec_protocol (demo_session 0 false)
        [demo_call demo_long_greeting true, demo_call (demo_long_greeting.drop 16) true,
         demo_call [4, 0, 0, 1, 5, 162, 0, 0] false]).map
      (fun o => o.log) = [[], [], [.incorrect_packet_number 1]] := by
  decide

/-- C11, amended: `copy_packets` keeps no packet boundaries. When a packet is
longer than the buffer, the call that reads its following segment (at least 4
bytes) while the handshake is not done (`handshake_done` false, `*curr_pktnr`
not 2 after the first segment, which filled the buffer) treats the segment like
a packet start: it reads
the byte at offset 3 as sequence number and rejects the segment (returns -1,
writes nothing) when `*curr_pktnr > 0` and that byte is not `*curr_pktnr + 1`;
otherwise it reads the byte at offset 4 as error marker and, for a segment
without marker whose byte 3 is not 1, a successful write forwards the segment
and stores byte 3 in `*curr_pktnr`. -/
theorem C11_following_segment_inspected (mp : MysqlProtocol) (c1 c2 : Call) (s : Session)
    (packet : List Nat) (seqno : Nat)
    (hhd : s.handshake_done = false) (hp2 : s.curr_pktnr ≠ 2)
    (hr1 : c1.sender_is_readable = true) (hread1 : c1.so.read = .data packet)
    (hbig : s.buffer.length < packet.length)
    (hr2 : c2.sender_is_readable = true)
    (hread2 : c2.so.read = .data (packet.drop s.buffer.length))
    (hnot2 : (c1.run mp s).curr_pktnr ≠ 2)
    (hlen : 4 ≤ (read_bytes (packet.drop s.buffer.length) s.buffer).length)
    (hseq : (read_bytes (packet.drop s.buffer.length) s.buffer)[3]? = some seqno) :
    (c1.run mp s).buffer = packet.take s.buffer.length ∧
    3 ∈ (c2.run mp (c1.run mp s).toSession).inspected ∧
    (0 < (c1.run mp s).curr_pktnr → (c1.run mp s).curr_pktnr < INT_MAX →
      (seqno : Int) ≠ (c1.run mp s).curr_pktnr + 1 →
      (c2.run mp (c1.run mp s).toSession).exit = .returned (-1) ∧
      (c2.run mp (c1.run mp s).toSession).writes = [] ∧
      (c2.run mp (c1.run mp s).toSession).log = [.incorrect_packet_number seqno]) ∧
    (∀ b4, (c2.run mp (c1.run mp s).toSession).buffer[4]? = some b4 →
      ((c1.run mp s).curr_pktnr ≤ 0 ∨ (seqno : Int) = (c1.run mp s).curr_pktnr + 1) →
      seqno < 256 →
      4 ∈ (c2.run mp (c1.run mp s).toSession).inspected ∧
      (b4 ≠ 0xff → seqno ≠ 1 → c2.so.write_all = .ok →
        (c2.run mp (c1.run mp s).toSession).exit = .returned 0 ∧
        (c2.run mp (c1.run mp s).toSession).writes
          = [(c2.receiver, read_bytes (packet.drop s.buffer.length) s.buffer)] ∧
        (c2.run mp (c1.run mp s).toSession).curr_pktnr = seqno)) := by
  have hlen1 : (c1.run mp s).buffer.length = s.buffer.length :=
    copy_packets_buffer_length mp c1.so c1.sender c1.receiver c1.sender_is_readable s
      c1.from_server
  have hhd1 : (c1.run mp s).handshake_done = false :=
    copy_packets_handshake_phase mp c1.so c1.sender c1.receiver c1.sender_is_readable s
      c1.from_server hhd hp2
  have key : ∀ S : Session, S.handshake_done = false → S.curr_pktnr ≠ 2 →
      S.buffer.length = s.buffer.length →
      3 ∈ (c2.run mp S).inspected ∧
      (0 < S.curr_pktnr → S.curr_pktnr < INT_MAX → (seqno : Int) ≠ S.curr_pktnr + 1 →
        (c2.run mp S).exit = .returned (-1) ∧ (c2.run mp S).writes = [] ∧
        (c2.run mp S).log = [.incorrect_packet_number seqno]) ∧
      (∀ b4, (c2.run mp S).buffer[4]? = some b4 →
        (S.curr_pktnr ≤ 0 ∨ (seqno : Int) = S.curr_pktnr + 1) → seqno < 256 →
        4 ∈ (c2.run mp S).inspected ∧
        (b4 ≠ 0xff → seqno ≠ 1 → c2.so.write_all = .ok →
          (c2.run mp S).exit = .returned 0 ∧
          (c2.run mp S).writes
            = [(c2.receiver, read_bytes (packet.drop s.buffer.length) s.buffer)] ∧
          (c2.run mp S).curr_pktnr = seqno)) := by
    intro S hS1 hS2 hS3
    have hc : ∀ pending, read_bytes pending S.buffer = read_bytes pending s.buffer :=
      fun pending => read_bytes_congr pending _ _ hS3
    have hn0 : (read_bytes (packet.drop s.buffer.length) S.buffer).length ≠ 0 := by
      rw [hc]; omega
    have hrun : c2.run mp S
        = copy_packets mp c2.so c2.sender c2.receiver true S c2.from_server := by
      simp only [Call.run, hr2]
    have hbuf : (c2.run mp S).buffer
        = buffer_after_read (packet.drop s.buffer.length) S.buffer := by
      rw [hrun, copy_packets_handshake_eq mp c2.so c2.sender c2.receiver S c2.from_server _
        hS1 hS2 hread2 hn0, inspect_handshake_buffer]
    have h := copy_packets_inspects mp c2.so c2.sender c2.receiver S c2.from_server
      (packet.drop s.buffer.length) seqno hS1 hS2 hread2
      (by rw [hc]; exact hlen) (by rw [hc]; exact hseq)
    simp only [hc] at h
    rw [hbuf, hrun]
    exact h
  refine ⟨?_, key (c1.run mp s).toSession hhd1 hnot2 hlen1⟩
  have hrb : read_bytes packet s.buffer = packet.take s.buffer.length := rfl
  have hfull : (read_bytes packet s.buffer).length = s.buffer.length := by
    rw [hrb, List.length_take]; omega
  by_cases h0 : s.buffer.length = 0
  · have hnil : s.buffer = [] := List.length_eq_zero.mp h0
    simp [Call.run, copy_packets, hr1, hread1, read_bytes, hnil]
  · have hn0 : (read_bytes packet s.buffer).length ≠ 0 := by omega
    have hbuf : ¬ s.buffer = [] := buffer_ne_nil_of_read _ _ hn0
    simp only [Call.run, hr1]
    rw [copy_packets_handshake_eq mp c1.so c1.sender c1.receiver s c1.from_server packet hhd
      hp2 hread1 hn0, inspect_handshake_buffer]
    rw [buffer_after_read, hfull, List.drop_length, List.append_nil, hrb]


/-- C11, amended, at the 24-byte greeting on a 16-byte buffer: the second
segment is inspected at offsets 3 and 4, forwarded, and its byte 3 (101) is
stored in `*curr_pktnr`. -/
theorem C11_following_segment_inspected_witness :
    ((demo_call demo_long_greeting true).run spec_protocol (demo_session 0 false)).buffer
      = demo_long_greeting.take 16 ∧
    3 ∈ ((demo_call (demo_long_greeting.drop 16) true).run spec_protocol
      ((demo_call demo_long_greeting true).run spec_protocol
        (demo_session 0 false)).toSession).inspected ∧
    4 ∈ ((demo_call (demo_long_greeting.drop 16) true).run spec_protocol
      ((demo_call demo_long_greeting true).run spec_protocol
        (demo_session 0 false)).toSession).inspected ∧
    ((demo_call (demo_long_greeting.drop 16) true).run spec_protocol
      ((demo_call demo_long_greeting true).run spec_protocol
        (demo_session 0 false)).toSession).exit = .returned 0 ∧
    ((demo_call (demo_long_greeting.drop 16) true).run spec_protocol
      ((demo_call demo_long_greeting true).run spec_protocol
        (demo_session 0 false)).toSession).writes
      = [(11, read_bytes (demo_long_greeting.drop 16) (demo_session 0 false).buffer)] ∧
    ((demo_call (demo_long_greeting.drop 16) true).run spec_protocol
      ((demo_call demo_long_greeting true).run spec_protocol
        (demo_session 0 false)).toSession).curr_pktnr = (101 : Nat) :=
  have h := C11_following_segment_inspected spec_protocol
    (demo_call demo_long_greeting true) (demo_call (demo_long_greeting.drop 16) true)
    (demo_session 0 false) demo_long_greeting 101
    (by decide) (by decide) (by decide) (by decide) (by decide) (by decide) (by decide)
    (by decide) (by decide) (by decide)
  have h4 := h.2.2.2 102 (by decide) (Or.inl (by decide)) (by decide)
  ⟨h.1, h.2.1, h4.1, h4.2 (by decide) (by decide) (by decide)⟩

/-! ## The option `destinations` and the option `mode` -/

/-- A present, non-empty option value reaches the checks of lines 100-130
unchanged. -/
theorem get_option_destinations_present (lib : ConfigLibrary) (config_section : ConfigSection)
    (option value : String) (hget : config_section option = some value)
    (hne : value ≠ "") :
    get_option_destinations lib config_section option
      = check_destinations_value lib option value := by
  have hemp : value.isEmpty = false := by
    cases h : value.isEmpty
    · rfl
    · exact absurd ((String.isEmpty_iff value).1 h) hne
  simp [get_option_destinations, hget, hemp]

/-- C12: when the option is present with a non-empty value that parses as a URI
whose scheme is not `fabric+cache`, `get_option_destinations` raises
`invalid_argument` ("... has an invalid URI scheme ...") and returns no value. -/
theorem C12_unknown_scheme (lib : ConfigLibrary) (config_section : ConfigSection)
    (option value : String) (uri : URI)
    (hget : config_section option = some value) (hne : value ≠ "")
    (huri : lib.URI value = some uri) (hscheme : uri.scheme ≠ "fabric+cache") :
    get_option_destinations lib config_section option
      = .raised (.invalid_argument
          (lib.get_log_prefix option ++ " has an invalid URI scheme '" ++ uri.scheme
            ++ "' for URI " ++ value)) := by
  rw [get_option_destinations_present lib config_section option value hget hne]
  simp [check_destinations_value, huri, hscheme]

/-- C12 at the value `mysql://c/group`. -/
theorem C12_unknown_scheme_witness :
    get_option_destinations spec_library
        (demo_section [("destinations", "mysql://c/group")]) "destinations"
      = .raised (.invalid_argument
          (spec_library.get_log_prefix "destinations" ++ " has an invalid URI scheme '"
            ++ "mysql" ++ "' for URI " ++ "mysql://c/group")) :=
  C12_unknown_scheme spec_library (demo_section [("destinations", "mysql://c/group")])
    "destinations" "mysql://c/group" { scheme := "mysql", path := ["group"] }
    (by decide) (by decide) (by decide) (by decide)

/-- A part is valid exactly when `split_addr_port` returns an address for it
that is valid with a port of 0 replaced by 3306. -/
theorem part_valid_iff (lib : ConfigLibrary) (part : String) :
    part_valid lib part = true
      ↔ ∃ addr port, lib.split_addr_port part = .ok (addr, port) ∧
          lib.TCPAddress_is_valid addr (if port = 0 then 3306 else port) = true := by
  unfold part_valid
  cases hs : lib.split_addr_port part with
  | error e => simp
  | ok info =>
    obtain ⟨addr, port⟩ := info
    constructor
    · intro h
      exact ⟨addr, port, rfl, h⟩
    · rintro ⟨addr2, port2, heq, h⟩
      cases heq
      exact h

/-- The loop of lines 118-127 runs to its end exactly when every part is valid. -/
theorem check_destinations_returned (lib : ConfigLibrary) (option : String)
    (parts : List String) :
    check_destinations lib option parts = .returned ()
      ↔ ∀ part ∈ parts, part_valid lib part = true := by
  induction parts with
  | nil => simp [check_destinations]
  | cons part rest ih =>
    rw [List.forall_mem_cons, ← ih]
    cases hs : lib.split_addr_port part with
    | error e => simp [check_destinations, part_valid, hs]
    | ok info =>
      cases hv : lib.TCPAddress_is_valid info.1 (if info.2 = 0 then 3306 else info.2) <;>
        simp [check_destinations, destination_port, part_valid, hs, hv]

/-- The loop of lines 118-127 ends at the first part whose address is invalid. -/
theorem check_destinations_first_invalid (lib : ConfigLibrary) (option : String)
    (pre : List String) (part : String) (post : List String) (addr : String) (port : Nat)
    (hpre : ∀ p ∈ pre, part_valid lib p = true)
    (hsplit : lib.split_addr_port part = .ok (addr, port))
    (hinv : lib.TCPAddress_is_valid addr (if port = 0 then 3306 else port) = false) :
    check_destinations lib option (pre ++ part :: post)
      = .raised (.invalid_argument
          (lib.get_log_prefix option ++ " has an invalid destination address '"
            ++ lib.TCPAddress_str addr (if port = 0 then 3306 else port) ++ "'")) := by
  induction pre with
  | nil => simp [check_destinations, destination_port, hsplit, hinv]
  | cons p ps ih =>
    have hp := hpre p (List.mem_cons_self _ _)
    have hps : ∀ q ∈ ps, part_valid lib q = true :=
      fun q hq => hpre q (List.mem_cons_of_mem _ hq)
    simp only [part_valid] at hp
    cases hs : lib.split_addr_port p with
    | error e => simp [hs] at hp
    | ok info =>
      simp only [hs] at hp
      simp [check_destinations, destination_port, hs, hp, ih hps]

/-- The loop of lines 118-127 ends at the first part for which
`split_addr_port` throws, with the exception thrown. -/
theorem check_destinations_first_thrown (lib : ConfigLibrary) (option : String)
    (pre : List String) (part : String) (post : List String) (e : Exception)
    (hpre : ∀ p ∈ pre, part_valid lib p = true)
    (hsplit : lib.split_addr_port part = .error e) :
    check_destinations lib option (pre ++ part :: post) = .raised e := by
  induction pre with
  | nil => simp [check_destinations, hsplit]
  | cons p ps ih =>
    have hp := hpre p (List.mem_cons_self _ _)
    have hps : ∀ q ∈ ps, part_valid lib q = true :=
      fun q hq => hpre q (List.mem_cons_of_mem _ hq)
    simp only [part_valid] at hp
    cases hs : lib.split_addr_port p with
    | error e2 => simp [hs] at hp
    | ok info =>
      simp only [hs] at hp
      simp [check_destinations, destination_port, hs, hp, ih hps]

/-- The loop of lines 118-127 runs to its end, or throws the `invalid_argument`
of line 125, or ends with an exception thrown by `split_addr_port`. -/
theorem check_destinations_ends (lib : ConfigLibrary) (option : String)
    (parts : List String) :
    check_destinations lib option parts = .returned () ∨
    (∃ what, check_destinations lib option parts = .raised (.invalid_argument what)) ∨
    (∃ part e, lib.split_addr_port part = .error e ∧
      check_destinations lib option parts = .raised e) := by
  induction parts with
  | nil => exact Or.inl (by simp [check_destinations])
  | cons part rest ih =>
    cases hs : lib.split_addr_port part with
    | error e =>
      exact Or.inr (Or.inr ⟨part, e, hs, by simp [check_destinations, hs]⟩)
    | ok info =>
      cases hv : lib.TCPAddress_is_valid info.1 (destination_port info.2) with
      | false =>
        exact Or.inr (Or.inl ⟨_, by simp only [check_destinations, hs, hv]; rfl⟩)
      | true =>
        have heq : check_destinations lib option (part :: rest)
            = check_destinations lib option rest := by
          simp [check_destinations, hs, hv]
        rw [heq]
        exact ih

/-- C14, as stated, fails for a library whose `split_addr_port` throws an
exception that is no `invalid_argument`: line 119 stands in no `try` block, so
for the list `127.0.0.1,h:99999`, whose second token has a port above 65535,
the call ends with the `std::runtime_error` thrown by `split_addr_port`. -/
theorem C14_counterexample :
    runtime_error_library.URI "127.0.0.1,h:99999" = none ∧
    getline_parts ',' "127.0.0.1,h:99999".data [] = ["127.0.0.1", "h:99999"] ∧
    part_valid runtime_error_library "127.0.0.1" = true ∧
    runtime_error_library.split_addr_port "h:99999" = .error (.other "invalid TCP port") ∧
    get_option_destinations runtime_error_library
        (demo_section [("destinations", "127.0.0.1,h:99999")]) "destinations"
      = .raised (.other "invalid TCP port") :=
  ⟨by decide, by decide, by decide, rfl, by decide⟩

/-- C14, amended: the option is present with a non-empty value that is no URI
(`URI` raises `URIError`). A part of the comma list yields a valid `TCPAddress`
when `split_addr_port` returns an address and a port for it and the address is
valid with that port, 3306 in place of a port of 0. The call returns the value
unchanged if and only if every part yields a valid `TCPAddress`. When the first
part that does not is one that `split_addr_port` splits, the call raises
`invalid_argument` naming the address of that part (with 3306 in place of port
0); when it is one for which `split_addr_port` throws, the call ends with the
exception thrown there, of whatever type. So the call returns the value or
raises `invalid_argument` whenever `split_addr_port` throws nothing but
`invalid_argument`. -/
theorem C14_comma_list (lib : ConfigLibrary) (config_section : ConfigSection)
    (option value : String)
    (hget : config_section option = some value) (hne : value ≠ "")
    (huri : lib.URI value = none) :
    (∀ part, part_valid lib part = true
      ↔ ∃ addr port, lib.split_addr_port part = .ok (addr, port) ∧
          lib.TCPAddress_is_valid addr (if port = 0 then 3306 else port) = true) ∧
    (get_option_destinations lib config_section option = .returned value
      ↔ ∀ part ∈ getline_parts ',' value.data [], part_valid lib part = true) ∧
    (∀ (pre : List String) (part : String) (post : List String) (addr : String) (port : Nat),
      getline_parts ',' value.data [] = pre ++ part :: post →
      (∀ p ∈ pre, part_valid lib p = true) →
      lib.split_addr_port part = .ok (addr, port) →
      lib.TCPAddress_is_valid addr (if port = 0 then 3306 else port) = false →
      get_option_destinations lib config_section option
        = .raised (.invalid_argument
            (lib.get_log_prefix option ++ " has an invalid destination address '"
              ++ lib.TCPAddress_str addr (if port = 0 then 3306 else port) ++ "'"))) ∧
    (∀ (pre : List String) (part : String) (post : List String) (e : Exception),
      getline_parts ',' value.data [] = pre ++ part :: post →
      (∀ p ∈ pre, part_valid lib p = true) →
      lib.split_addr_port part = .error e →
      get_option_destinations lib config_section option = .raised e) ∧
    ((∀ part e, lib.split_addr_port part = .error e → ∃ what, e = .invalid_argument what) →
      get_option_destinations lib config_section option = .returned value ∨
      ∃ what, get_option_destinations lib config_section option
        = .raised (.invalid_argument what)) := by
  rw [get_option_destinations_present lib config_section option value hget hne]
  refine ⟨part_valid_iff lib, ?_, ?_, ?_, ?_⟩
  · rw [← check_destinations_returned lib option]
    simp only [check_destinations_value, huri]
    cases hc : check_destinations lib option (getline_parts ',' value.data []) <;> simp
  · intro pre part post addr port hparts hpre hsplit hinv
    simp only [check_destinations_value, huri, hparts,
      check_destinations_first_invalid lib option pre part post addr port hpre hsplit hinv]
  · intro pre part post e hparts hpre hsplit
    simp only [check_destinations_value, huri, hparts,
      check_destinations_first_thrown lib option pre part post e hpre hsplit]
  · intro hthrown
    rcases check_destinations_ends lib option (getline_parts ',' value.data [])
      with hc | ⟨what, hc⟩ | ⟨part, e, hs, hc⟩
    · exact Or.inl (by simp only [check_destinations_value, huri, hc])
    · exact Or.inr ⟨what, by simp only [check_destinations_value, huri, hc]⟩
    · obtain ⟨what, hw⟩ := hthrown part e hs
      exact Or.inr ⟨what, by simp only [check_destinations_value, huri, hc, hw]⟩

/-- C14, amended, at a list whose second part `bad host:4000` has an invalid
address (the first has port 3307), and at a list whose second part `bad host`
has no port: the call raises `invalid_argument` for that part, with its own
port in the first case and with 3306 in the second. -/
theorem C14_comma_list_witness :
    get_option_destinations spec_library
        (demo_section [("destinations", "127.0.0.1:3307,bad host:4000,10.0.0.2")])
        "destinations"
      = .raised (.invalid_argument
          "option destinations has an invalid destination address 'bad host:4000'") ∧
    get_option_destinations spec_library
        (demo_section [("destinations", "127.0.0.1,bad host")]) "destinations"
      = .raised (.invalid_argument
          "option destinations has an invalid destination address 'bad host:3306'") :=
  ⟨(C14_comma_list spec_library
      (demo_section [("destinations", "127.0.0.1:3307,bad host:4000,10.0.0.2")])
      "destinations" "127.0.0.1:3307,bad host:4000,10.0.0.2"
      (by decide) (by decide) (by decide)).2.2.1
      ["127.0.0.1:3307"] "bad host:4000" ["10.0.0.2"] "bad host" 4000
      (by decide) (by decide) rfl (by decide),
    (C14_comma_list spec_library
      (demo_section [("destinations", "127.0.0.1,bad host")])
      "destinations" "127.0.0.1,bad host"
      (by decide) (by decide) (by decide)).2.2.1
      ["127.0.0.1"] "bad host" [] "bad host" 0
      (by decide) (by decide) rfl (by decide)⟩

/-- C15, as stated, fails: for the part `127.0.0.1:0`, and for the part
`10.0.0.2` without port, `split_addr_port` yields port 0, and the call returns
the value instead of raising `invalid_argument`. -/
theorem C15_counterexample :
    spec_library.split_addr_port "127.0.0.1:0" = .ok ("127.0.0.1", 0) ∧
    get_option_destinations spec_library
        (demo_section [("destinations", "127.0.0.1:0")]) "destinations"
      = .returned "127.0.0.1:0" ∧
    spec_library.split_addr_port "10.0.0.2" = .ok ("10.0.0.2", 0) ∧
    get_option_destinations spec_library
        (demo_section [("destinations", "10.0.0.2")]) "destinations"
      = .returned "10.0.0.2" :=
  ⟨rfl, by decide, rfl, by decide⟩

/-- C15, amended: a part of the comma list for which `split_addr_port` yields
port 0 is checked with port 3306 in its place. With every other part valid, the
call returns the value when the address with port 3306 is valid, and raises
`invalid_argument` for the part only when the address with port 3306 is
invalid. A port other than 0 is passed on as it is. -/
theorem C15_port_zero_defaulted (lib : ConfigLibrary) (config_section : ConfigSection)
    (option value : String) (pre : List String) (part : String) (post : List String)
    (addr : String)
    (hget : config_section option = some value) (hne : value ≠ "")
    (huri : lib.URI value = none)
    (hparts : getline_parts ',' value.data [] = pre ++ part :: post)
    (hpre : ∀ p ∈ pre, part_valid lib p = true)
    (hpost : ∀ p ∈ post, part_valid lib p = true)
    (hsplit : lib.split_addr_port part = .ok (addr, 0)) :
    (lib.TCPAddress_is_valid addr 3306 = true →
      get_option_destinations lib config_section option = .returned value) ∧
    (lib.TCPAddress_is_valid addr 3306 = false →
      get_option_destinations lib config_section option
        = .raised (.invalid_argument
            (lib.get_log_prefix option ++ " has an invalid destination address '"
              ++ lib.TCPAddress_str addr 3306 ++ "'"))) ∧
    (∀ port, port ≠ 0 → destination_port port = port) := by
  rw [get_option_destinations_present lib config_section option value hget hne]
  refine ⟨?_, ?_, ?_⟩
  · intro hvalid
    have hall : ∀ p ∈ pre ++ part :: post, part_valid lib p = true := by
      intro p hp
      rcases List.mem_append.1 hp with h | h
      · exact hpre p h
      · rcases List.mem_cons.1 h with h | h
        · subst h
          simp [part_valid, hsplit, hvalid]
        · exact hpost p h
    have hc := (check_destinations_returned lib option _).2 hall
    simp [check_destinations_value, huri, hparts, hc]
  · intro hinv
    have hc := check_destinations_first_invalid lib option pre part post addr 0 hpre hsplit
      (by simpa using hinv)
    simp only [check_destinations_value, huri, hparts, hc]
    simp
  · intro port hport
    simp [destination_port, hport]

/-- C15, amended, at the list `10.0.0.1:3307,127.0.0.1:0`: the value is
returned. -/
theorem C15_port_zero_defaulted_witness :
    get_option_destinations spec_library
        (demo_section [("destinations", "10.0.0.1:3307,127.0.0.1:0")]) "destinations"
      = .returned "10.0.0.1:3307,127.0.0.1:0" :=
  (C15_port_zero_defaulted spec_library
    (demo_section [("destinations", "10.0.0.1:3307,127.0.0.1:0")]) "destinations"
    "10.0.0.1:3307,127.0.0.1:0" ["10.0.0.1:3307"] "127.0.0.1:0" [] "127.0.0.1"
    (by decide) (by decide) (by decide) (by decide) (by decide) (by decide)
    rfl).1 (by decide)


/-- The checks of lines 100-130 return nothing but the value they were given. -/
theorem check_destinations_value_returned (lib : ConfigLibrary) (option value v : String)
    (h : check_destinations_value lib option value = .returned v) : v = value := by
  unfold check_destinations_value at h
  dsimp only at h
  repeat' split at h
  all_goals simp_all

/-- C16: for a required option, `get_option_destinations` raises
`invalid_argument` when the option is absent ("... is required") and when it is
present with an empty value ("... is required and needs a value"); any value it
returns is the non-empty value of the option in the section, so no default is
substituted and no empty text is returned. -/
theorem C16_required_destinations (lib : ConfigLibrary) (config_section : ConfigSection)
    (option : String) (hreq : is_required option = true) :
    (config_section option = none →
      get_option_destinations lib config_section option
        = .raised (.invalid_argument (lib.get_log_prefix option ++ " is required"))) ∧
    (config_section option = some "" →
      get_option_destinations lib config_section option
        = .raised (.invalid_argument
            (lib.get_log_prefix option ++ " is required and needs a value"))) ∧
    (∀ v, get_option_destinations lib config_section option = .returned v →
      v ≠ "" ∧ config_section option = some v) := by
  refine ⟨?_, ?_, ?_⟩
  · intro hnone
    simp [get_option_destinations, hnone, hreq]
  · intro hempty
    have he : "".isEmpty = true := by decide
    simp [get_option_destinations, hempty, hreq, he]
  · intro v hv
    cases hget : config_section option with
    | none => simp [get_option_destinations, hget, hreq] at hv
    | some value =>
      cases hemp : value.isEmpty
      · have hne : value ≠ "" := by
          intro h
          have := (String.isEmpty_iff value).2 h
          simp [hemp] at this
        rw [get_option_destinations_present lib config_section option value hget hne] at hv
        have := check_destinations_value_returned lib option value v hv
        subst this
        exact ⟨hne, rfl⟩
      · simp [get_option_destinations, hget, hreq, hemp] at hv

/-- C16 at the option `destinations`, absent and present with an empty value. -/
theorem C16_required_destinations_witness :
    get_option_destinations spec_library (demo_section []) "destinations"
      = .raised (.invalid_argument
          (spec_library.get_log_prefix "destinations" ++ " is required")) ∧
    get_option_destinations spec_library (demo_section [("destinations", "")])
        "destinations"
      = .raised (.invalid_argument
          (spec_library.get_log_prefix "destinations" ++ " is required and needs a value")) :=
  ⟨(C16_required_destinations spec_library (demo_section []) "destinations"
      (by decide)).1 (by decide),
    (C16_required_destinations spec_library (demo_section [("destinations", "")])
      "destinations" (by decide)).2.1 (by decide)⟩

/-- C18: `is_required(option)` is true exactly for `bind_address`, `mode` and
`destinations`; it is false for `protocol`, `connect_timeout`, `wait_timeout`
and `max_connections`. -/
theorem C18_is_required (option : String) :
    (is_required option = true
      ↔ option = "bind_address" ∨ option = "mode" ∨ option = "destinations") ∧
    is_required "protocol" = false ∧ is_required "connect_timeout" = false ∧
    is_required "wait_timeout" = false ∧ is_required "max_connections" = false := by
  refine ⟨?_, by decide, by decide, by decide, by decide⟩
  simp [is_required]

/-! ## Failures of `copy_packets` -/

/-- C21: with the sender readable and a non-empty buffer (line 59 takes
`&buffer.front()`, which an empty vector does not define), a `read` that
returns 0 (plain connection close) makes `copy_packets` return -1 with the errno
of the socket operations set to 0, and a `read` that returns -1 makes it return
-1 with errno as the `read` left it; in both cases `write_all` is not called,
and the in/out arguments other than `handshake_done` keep their values. -/
theorem C21_close_and_read_error (mp : MysqlProtocol) (so : SocketOperations)
    (sender receiver : Int) (s : Session) (from_server : Bool)
    (hbuf : s.buffer ≠ []) :
    (∀ pending, so.read = .data pending → (read_bytes pending s.buffer).length = 0 →
      copy_packets mp so sender receiver true s from_server =
        { curr_pktnr := s.curr_pktnr
          handshake_done :=
            if !s.handshake_done && s.curr_pktnr == 2 then true else s.handshake_done
          report_bytes_read := s.report_bytes_read
          buffer := s.buffer
          exit := .returned (-1)
          errno := 0
          writes := []
          inspected := []
          log := [] }) ∧
    (∀ read_errno, so.read = .failed read_errno →
      copy_packets mp so sender receiver true s from_server =
        { curr_pktnr := s.curr_pktnr
          handshake_done :=
            if !s.handshake_done && s.curr_pktnr == 2 then true else s.handshake_done
          report_bytes_read := s.report_bytes_read
          buffer := s.buffer
          exit := .returned (-1)
          errno := read_errno
          writes := []
          inspected := []
          log := [.read_failed sender read_errno] }) := by
  constructor
  · intro pending hread h0
    simp [copy_packets, hbuf, hread, h0]
  · intro read_errno hread
    simp [copy_packets, hbuf, hread]

/-- C21 at a closed connection with errno 11 on entry, and at a `read` that
fails with errno 104. -/
theorem C21_close_and_read_error_witness :
    (demo_session 0 false).buffer ≠ [] ∧
    (copy_packets spec_protocol { errno := 11, read := .data [], write_all := .ok }
        10 11 true (demo_session 0 false) true).errno = 0 ∧
    (copy_packets spec_protocol { errno := 11, read := .data [], write_all := .ok }
        10 11 true (demo_session 0 false) true).exit = .returned (-1) ∧
    (copy_packets spec_protocol { errno := 11, read := .failed 104, write_all := .ok }
        10 11 true (demo_session 0 false) true).errno = 104 ∧
    (copy_packets spec_protocol { errno := 11, read := .failed 104, write_all := .ok }
        10 11 true (demo_session 0 false) true).exit = .returned (-1) :=
  have h1 := (C21_close_and_read_error spec_protocol
    { errno := 11, read := .data [], write_all := .ok } 10 11 (demo_session 0 false)
    true (by decide)).1 [] rfl (by decide)
  have h2 := (C21_close_and_read_error spec_protocol
    { errno := 11, read := .failed 104, write_all := .ok } 10 11 (demo_session 0 false)
    true (by decide)).2 104 rfl
  ⟨by decide, by rw [h1], by rw [h1], by rw [h2], by rw [h2]⟩

/-- C22: a handshake-phase call (`*curr_pktnr` below `INT_MAX`) reads at least 4
bytes with header seqno 1 and a first payload byte other than 0xFF, and building
the packet from the buffer or reading its `get_int<uint32_t>(4)` throws
`packet_error`. Then `copy_packets` returns -1 and does not call `write_all`;
when the sequence check lets the packet pass (`*curr_pktnr ≤ 0`) the text of the
`packet_error` is what is logged. -/
theorem C22_malformed_capability (mp : MysqlProtocol) (so : SocketOperations)
    (sender receiver : Int) (s : Session) (from_server : Bool) (pending : List Nat)
    (b4 : Nat)
    (hhd : s.handshake_done = false) (hp2 : s.curr_pktnr ≠ 2)
    (hmax : s.curr_pktnr < INT_MAX)
    (hread : so.read = .data pending)
    (hlen : 4 ≤ (read_bytes pending s.buffer).length)
    (hseq : (read_bytes pending s.buffer)[3]? = some 1)
    (hb4 : (buffer_after_read pending s.buffer)[4]? = some b4) (hmark : b4 ≠ 0xff)
    (hthrow : (mp.Packet (buffer_after_read pending s.buffer)).bind
      (fun pkt => mp.get_int_uint32 pkt 4) = none) :
    (copy_packets mp so sender receiver true s from_server).exit = .returned (-1) ∧
    (copy_packets mp so sender receiver true s from_server).writes = [] ∧
    (s.curr_pktnr ≤ 0 →
      (copy_packets mp so sender receiver true s from_server).log = [.packet_error]) := by
  have hb3 : (buffer_after_read pending s.buffer)[3]? = some 1 := by
    rw [buffer_after_read_get _ _ 3 (by omega), hseq]
  have hn0 : (read_bytes pending s.buffer).length ≠ 0 := by omega
  have hbuf : ¬ s.buffer = [] := buffer_ne_nil_of_read _ _ hn0
  have hnh : ¬ (read_bytes pending s.buffer).length < kHeaderSize := by
    simp only [kHeaderSize]; omega
  have hov : ¬ (0 < s.curr_pktnr ∧ INT_MAX < s.curr_pktnr + 1) := by omega
  by_cases hpos : 0 < s.curr_pktnr
  · have hle : ¬ s.curr_pktnr ≤ 0 := by omega
    have hov2 : ¬ INT_MAX < s.curr_pktnr + 1 := by omega
    have hne0 : ¬ s.curr_pktnr = 0 := by omega
    simp [copy_packets, hbuf, inspect_handshake, hhd, hp2, hread, hn0, hnh, hb3, hov2, hpos, hne0,
      hle]
  · simp [copy_packets, hbuf, inspect_handshake, hhd, hp2, hread, hn0, hnh, hb3, hb4, hov, hpos,
      hmark, hthrow]

/-- C22 at a handshake response that announces 200 bytes of payload in a buffer
of 16 bytes. -/
theorem C22_malformed_capability_witness :
    (copy_packets spec_protocol (demo_call [200, 0, 0, 1, 5, 162, 0, 0] false).so 10 11 true
        (demo_session 0 false) false).exit = .returned (-1) ∧
    (copy_packets spec_protocol (demo_call [200, 0, 0, 1, 5, 162, 0, 0] false).so 10 11 true
        (demo_session 0 false) false).writes = [] ∧
    (copy_packets spec_protocol (demo_call [200, 0, 0, 1, 5, 162, 0, 0] false).so 10 11 true
        (demo_session 0 false) false).log = [.packet_error] :=
  have h := C22_malformed_capability spec_protocol
    (demo_call [200, 0, 0, 1, 5, 162, 0, 0] false).so 10 11 (demo_session 0 false) false
    [200, 0, 0, 1, 5, 162, 0, 0] 5
    (by decide) (by decide) (by decide) (by decide) (by decide) (by decide) (by decide)
    (by decide) (by decide)
  ⟨h.1, h.2.1, h.2.2 (by decide)⟩

/-- Forwarding that returns -1 has stored nothing through the out-pointers. -/
theorem forward_failed (so : SocketOperations) (receiver : Int) (m : Outcome) (pktnr : Int)
    (bytes_read : Nat) (h : (forward so receiver m pktnr bytes_read).exit = .returned (-1)) :
    (forward so receiver m pktnr bytes_read).curr_pktnr = m.curr_pktnr ∧
    (forward so receiver m pktnr bytes_read).report_bytes_read = m.report_bytes_read := by
  unfold forward at h ⊢
  cases hw : so.write_all with
  | ok => simp [hw] at h
  | failed e => simp

/-- Forwarding a server error never returns -1. -/
theorem forward_server_error_exit (mp : MysqlProtocol) (so : SocketOperations)
    (receiver : Int) (m : Outcome) (bytes_read : Nat) :
    (forward_server_error mp so receiver m bytes_read).exit ≠ .returned (-1) := by
  unfold forward_server_error
  dsimp only
  cases mp.ErrorPacket (m.buffer.take bytes_read) <;> cases so.write_all <;> simp

/-- The handshake checks that return -1 have stored nothing through the
out-pointers. -/
theorem inspect_handshake_failed (mp : MysqlProtocol) (so : SocketOperations)
    (receiver : Int) (m : Outcome) (curr_pktnr : Int) (bytes_read : Nat) :
    (inspect_handshake mp so receiver m curr_pktnr bytes_read).exit = .returned (-1) →
    (inspect_handshake mp so receiver m curr_pktnr bytes_read).curr_pktnr = m.curr_pktnr ∧
    (inspect_handshake mp so receiver m curr_pktnr bytes_read).report_bytes_read
      = m.report_bytes_read := by
  unfold inspect_handshake
  dsimp only
  repeat' split
  all_goals first
    | exact fun _ => ⟨rfl, rfl⟩
    | exact fun h => forward_failed so receiver _ _ _ h
    | exact fun h => absurd h (forward_server_error_exit mp so receiver _ bytes_read)

/-- C24: whenever `copy_packets` returns -1, `*curr_pktnr` and
`*report_bytes_read` hold the values they had on entry. -/
theorem C24_failure_keeps_out_values (mp : MysqlProtocol) (so : SocketOperations)
    (sender receiver : Int) (readable : Bool) (s : Session) (from_server : Bool)
    (hfail : (copy_packets mp so sender receiver readable s from_server).exit
      = .returned (-1)) :
    (copy_packets mp so sender receiver readable s from_server).curr_pktnr = s.curr_pktnr ∧
    (copy_packets mp so sender receiver readable s from_server).report_bytes_read
      = s.report_bytes_read := by
  revert hfail
  unfold copy_packets
  dsimp only
  repeat' split
  all_goals first
    | exact fun _ => ⟨rfl, rfl⟩
    | exact fun h => inspect_handshake_failed mp so receiver _ _ _ h
    | exact fun h => forward_failed so receiver _ _ _ h
    | (intro h; simp at h)

/-- C24 at a failed write after `*curr_pktnr = 1` and `*report_bytes_read = 7`. -/
theorem C24_failure_keeps_out_values_witness :
    (copy_packets spec_protocol (demo_failing_write [1, 0, 0, 2, 0]) 10 11 true
        { curr_pktnr := 1, handshake_done := false, report_bytes_read := 7,
          buffer := List.replicate 16 0 } true).curr_pktnr = 1 ∧
    (copy_packets spec_protocol (demo_failing_write [1, 0, 0, 2, 0]) 10 11 true
        { curr_pktnr := 1, handshake_done := false, report_bytes_read := 7,
          buffer := List.replicate 16 0 } true).report_bytes_read = 7 :=
  C24_failure_keeps_out_values spec_protocol (demo_failing_write [1, 0, 0, 2, 0]) 10 11 true
    { curr_pktnr := 1, handshake_done := false, report_bytes_read := 7,
      buffer := List.replicate 16 0 } true (by decide)

/-! ## Calls without readable sender, stale buffer content, the direction flag -/

/-- C25, as stated, fails: a call with `sender_is_readable` false that is entered
with `*curr_pktnr = 1` returns 0 and leaves `*curr_pktnr = 0`. -/
theorem C25_counterexample :
    (copy_packets spec_protocol (demo_call [1, 0, 0, 2, 0] true).so 10 11 false
        (demo_session 1 false) true).exit = .returned 0 ∧
    (copy_packets spec_protocol (demo_call [1, 0, 0, 2, 0] true).so 10 11 false
        (demo_session 1 false) true).curr_pktnr = 0 ∧
    (demo_session 1 false).curr_pktnr = 1 := by
  decide

/-- C25, amended: a call with `sender_is_readable` false returns 0, sets
`*report_bytes_read` to 0 and `*curr_pktnr` to 0, whatever its value on entry,
leaves the buffer and errno alone, calls `write_all` not at all and logs
nothing, whatever `read` and `write_all` would answer; `handshake_done` changes
only from false to true, when `*curr_pktnr` was 2 on entry. -/
theorem C25_not_readable (mp : MysqlProtocol) (so : SocketOperations)
    (sender receiver : Int) (s : Session) (from_server : Bool) :
    copy_packets mp so sender receiver false s from_server =
      { curr_pktnr := 0
        handshake_done :=
          if !s.handshake_done && s.curr_pktnr == 2 then true else s.handshake_done
        report_bytes_read := 0
        buffer := s.buffer
        exit := .returned 0
        errno := so.errno
        writes := []
        inspected := []
        log := [] } := by
  simp [copy_packets]

/-- C26, evaluated where it fails. After the greeting of an 8.0.11 server went
through a 16-byte buffer, the client side delivers only the four header bytes
`04 00 00 01` (`n = 4`). The call subscripts index 4, which is not below `n`,
and takes the capability flags from indices 4..7, where the greeting left
`0a 38 2e 30`: bit 0x0800 is set there, so the call leaves `*curr_pktnr = 2`.
The same four bytes read into a buffer of zeros leave `*curr_pktnr = 1`: the
outcome depends on the stale content. On a buffer of size 4 the subscript 4 is
outside the buffer. -/
theorem C26_inspection_beyond_received :
    (run_calls spec_protocol (demo_session 0 false)
        [demo_call demo_greeting_8 true, demo_call [4, 0, 0, 1] false]).map
      (fun o => o.exit) = [.returned 0, .returned 0] ∧
    (run_calls spec_protocol (demo_session 0 false)
        [demo_call demo_greeting_8 true, demo_call [4, 0, 0, 1] false]).map
      (fun o => o.report_bytes_read) = [16, 4] ∧
    (run_calls spec_protocol (demo_session 0 false)
        [demo_call demo_greeting_8 true, demo_call [4, 0, 0, 1] false]).map
      (fun o => o.inspected) = [[3, 4], [3, 4]] ∧
    (run_calls spec_protocol (demo_session 0 false)
        [demo_call demo_greeting_8 true, demo_call [4, 0, 0, 1] false]).map
      (fun o => o.curr_pktnr) = [0, 2] ∧
    (copy_packets spec_protocol (demo_call [4, 0, 0, 1] false).so 10 11 true
        (demo_session 0 false) false).curr_pktnr = 1 ∧
    (copy_packets spec_protocol (demo_call [4, 0, 0, 1] false).so 10 11 true
        { curr_pktnr := 0, handshake_done := false, report_bytes_read := 0,
          buffer := [0, 0, 0, 0] } false).exit = .undefined_behaviour := by
  decide

/-- C27: `copy_packets` does not depend on `from_server`: two calls that differ
in nothing else have the same outcome in every respect. Consequently a
handshake packet sent by the client (`from_server` false) whose seqno passes the
check of line 84 and whose first payload byte is 0xFF goes the way of a server
error packet: it is written to the receiver as the `ErrorPacket` built from it,
the call returns 0 and leaves `*curr_pktnr = 2`, without a look at the
capability flags. -/
theorem C27_from_server_ignored (mp : MysqlProtocol) (so : SocketOperations)
    (sender receiver : Int) (s : Session) (pending : List Nat)
    (seqno : Nat) (server_error : RoutingProtocolBuffer)
    (hhd : s.handshake_done = false) (hp2 : s.curr_pktnr ≠ 2)
    (hread : so.read = .data pending)
    (hlen : 4 ≤ (read_bytes pending s.buffer).length)
    (hseq : (read_bytes pending s.buffer)[3]? = some seqno) (hbyte : seqno < 256)
    (hpass : s.curr_pktnr ≤ 0 ∨ (seqno : Int) = s.curr_pktnr + 1)
    (hmark : (buffer_after_read pending s.buffer)[4]? = some 0xff)
    (herr : mp.ErrorPacket (read_bytes pending s.buffer) = some server_error) :
    (∀ (so2 : SocketOperations) (sender2 receiver2 : Int) (readable2 : Bool) (s2 : Session),
      copy_packets mp so2 sender2 receiver2 readable2 s2 true
        = copy_packets mp so2 sender2 receiver2 readable2 s2 false) ∧
    (copy_packets mp so sender receiver true s false).exit = .returned 0 ∧
    (copy_packets mp so sender receiver true s false).writes = [(receiver, server_error)] ∧
    (copy_packets mp so sender receiver true s false).curr_pktnr = 2 ∧
    copy_packets mp so sender receiver true s false
      = copy_packets mp so sender receiver true s true := by
  have hb3 : (buffer_after_read pending s.buffer)[3]? = some seqno := by
    rw [buffer_after_read_get _ _ 3 (by omega), hseq]
  have hn0 : (read_bytes pending s.buffer).length ≠ 0 := by omega
  have hbuf : ¬ s.buffer = [] := buffer_ne_nil_of_read _ _ hn0
  have hnh : ¬ (read_bytes pending s.buffer).length < kHeaderSize := by
    simp only [kHeaderSize]; omega
  have hov : ¬ (0 < s.curr_pktnr ∧ INT_MAX < s.curr_pktnr + 1) := by
    simp only [INT_MAX]; omega
  have hchk : ¬ (0 < s.curr_pktnr ∧ (seqno : Int) ≠ s.curr_pktnr + 1) := by omega
  have htake := buffer_after_read_take pending s.buffer
  refine ⟨fun _ _ _ _ _ => rfl, ?_, ?_, ?_, rfl⟩
  all_goals
    cases hw : so.write_all <;>
      simp [copy_packets, hbuf, inspect_handshake, forward_server_error, hhd, hp2, hread, hn0,
        hnh, hb3, hov, hchk, hmark, htake, herr, hw]

/-- C27 at a handshake response of the client whose capability flags `0xF7FF`
have the low byte 0xFF (and the bit 0x0800 clear). -/
theorem C27_from_server_ignored_witness :
    (copy_packets spec_protocol (demo_call [4, 0, 0, 1, 255, 247, 0, 0] false).so 10 11 true
        (demo_session 0 false) false).exit = .returned 0 ∧
    (copy_packets spec_protocol (demo_call [4, 0, 0, 1, 255, 247, 0, 0] false).so 10 11 true
        (demo_session 0 false) false).writes = [(11, [4, 0, 0, 1, 255, 247, 0, 0])] ∧
    (copy_packets spec_protocol (demo_call [4, 0, 0, 1, 255, 247, 0, 0] false).so 10 11 true
        (demo_session 0 false) false).curr_pktnr = 2 :=
  have h := C27_from_server_ignored spec_protocol
    (demo_call [4, 0, 0, 1, 255, 247, 0, 0] false).so 10 11 (demo_session 0 false)
    [4, 0, 0, 1, 255, 247, 0, 0] 1 [4, 0, 0, 1, 255, 247, 0, 0]
    (by decide) (by decide) (by decide) (by decide) (by decide) (by decide) (by decide)
    (by decide) (by decide)
  ⟨h.2.1, h.2.2.1, h.2.2.2.1⟩

/-! ## A URI without path -/

/-- C28, where it fails: when the option is present with a non-empty value that
parses as a URI with scheme `fabric+cache` and an empty path, the subscript
`uri.path[0]` of line 103 is outside the vector and the call has no defined
behaviour. -/
theorem C28_empty_path_indexed (lib : ConfigLibrary) (config_section : ConfigSection)
    (option value : String) (uri : URI)
    (hget : config_section option = some value) (hne : value ≠ "")
    (huri : lib.URI value = some uri) (hscheme : uri.scheme = "fabric+cache")
    (hpath : uri.path = []) :
    get_option_destinations lib config_section option = .undefined_behaviour := by
  rw [get_option_destinations_present lib config_section option value hget hne]
  simp [check_destinations_value, huri, hscheme, hpath]

/-- C28 at the value `fabric+cache://c`, a URI without path component. -/
theorem C28_empty_path_indexed_witness :
    get_option_destinations spec_library
        (demo_section [("destinations", "fabric+cache://c")]) "destinations"
      = .undefined_behaviour :=
  C28_empty_path_indexed spec_library (demo_section [("destinations", "fabric+cache://c")])
    "destinations" "fabric+cache://c" { scheme := "fabric+cache", path := [] }
    (by decide) (by decide) (by decide) (by decide) (by decide)

/-! ## Lookup of the plugin structure -/

/-- C23, evaluated where it fails. In general the routine looks up
`harness_plugin_` + `symbol` and, when that fails, the plugin name given to the
constructor, not `symbol`. For the library `routing.so` that exports `routing`
only, loaded for the plugin `keepalive`, `get_plugin_struct("routing")` looks up
`harness_plugin_routing` and then `keepalive` and throws, although `routing` is
exported; when the library exports `keepalive` as well, the address of
`keepalive` is returned. -/
theorem C23_fallback_is_plugin_name :
    (∀ (lf : Library_file) (symbol : String),
      (lf.get_plugin_struct symbol).symbols = ["harness_plugin_" ++ symbol] ∨
      (lf.get_plugin_struct symbol).symbols
        = ["harness_plugin_" ++ symbol, lf.plugin_name_]) ∧
    ((demo_library_file "keepalive" [("routing", 4096)]).get_plugin_struct "routing").symbols
      = ["harness_plugin_routing", "keepalive"] ∧
    ((demo_library_file "keepalive" [("routing", 4096)]).get_plugin_struct "routing").result
      = .error "Loading plugin information for 'routing.so' failed: undefined symbol: keepalive" ∧
    ((demo_library_file "keepalive"
        [("routing", 4096), ("keepalive", 8192)]).get_plugin_struct "routing").result
      = .ok 8192 := by
  refine ⟨?_, by decide, rfl, rfl⟩
  intro lf symbol
  unfold Library_file.get_plugin_struct Library_file.get_plugin_struct_internal
  cases h1 : lf.dlerror ("harness_plugin_" ++ symbol) <;>
    cases h2 : lf.dlerror lf.plugin_name_ <;> simp [h1, h2]

end Routing

/-! ## The registry of named caches -/

namespace Routing.fabric_cache

/-- Looking a key up after an entry was appended. -/
theorem lookup_append_new (caches : List (String × FabricCache)) (cache_name : String)
    (cache : FabricCache) (other : String) :
    (caches ++ [(cache_name, cache)]).lookup other
      = match caches.lookup other with
        | some found => some found
        | none => if other = cache_name then some cache else none := by
  induction caches with
  | nil =>
    by_cases h : other = cache_name
    · simp [List.lookup, h]
    · have : (other == cache_name) = false := by simpa using h
      simp [List.lookup, h, this]
  | cons entry rest ih =>
    obtain ⟨key, value⟩ := entry
    by_cases hk : other = key
    · simp [List.lookup, hk]
    · have : (other == key) = false := by simpa using hk
      simp [List.lookup, this, ih]

/-- What a call of `cache_init` does: nothing when the name has an entry;
otherwise one entry is added, one cache constructed and that cache started. -/
theorem cache_init_eq (r : Registry) (cache_name host : String) (port : Int)
    (user password : String) :
    cache_init r cache_name host port user password
      = .returned
          (if have_cache r cache_name = true then r
           else
            { g_fabric_caches := r.g_fabric_caches ++
                [(cache_name, new_FabricCache host port user password)],
              events := r.events ++
                [.constructed (new_FabricCache host port user password),
                 .started cache_name (new_FabricCache host port user password)] }) := by
  unfold cache_init have_cache
  cases h : find r cache_name with
  | some found => simp
  | none =>
    have hl : r.g_fabric_caches.lookup cache_name = none := h
    simp [find, emplace, hl, lookup_append_new]

/-- The entries after a call of `cache_init` that returned. -/
theorem cache_init_find (r r1 : Registry) (cache_name host : String) (port : Int)
    (user password : String)
    (h : cache_init r cache_name host port user password = .returned r1) (other : String) :
    find r1 other
      = match find r other with
        | some found => some found
        | none =>
          if other = cache_name then some (new_FabricCache host port user password)
          else none := by
  rw [cache_init_eq] at h
  injection h with h
  subst h
  by_cases hc : have_cache r cache_name = true
  · simp only [hc, if_true]
    cases hf : find r other with
    | some found => rfl
    | none =>
      have : other ≠ cache_name := by
        intro heq
        subst heq
        simp [have_cache, hf] at hc
      simp [this]
  · have hf : have_cache r cache_name = false := by simpa using hc
    simp [hf, find, lookup_append_new]


/-- An entry, once present, stays as it is through any calls of `cache_init`. -/
theorem init_all_find (calls : List InitCall) :
    ∀ (r r2 : Registry) (cache_name : String) (cache : FabricCache),
      find r cache_name = some cache → init_all r calls = .returned r2 →
      find r2 cache_name = some cache := by
  induction calls with
  | nil =>
    intro r r2 cache_name cache hf h
    simp only [init_all] at h
    injection h with h
    subst h
    exact hf
  | cons c rest ih =>
    intro r r2 cache_name cache hf h
    obtain ⟨r1, hr1⟩ : ∃ r1, cache_init r c.cache_name c.host c.port c.user c.password
        = .returned r1 := ⟨_, cache_init_eq r c.cache_name c.host c.port c.user c.password⟩
    simp only [init_all, InitCall.run, hr1] at h
    refine ih r1 r2 cache_name cache ?_ h
    rw [cache_init_find r r1 c.cache_name c.host c.port c.user c.password hr1 cache_name, hf]

/-- The names that have an entry after calls of `cache_init` are the names that
had one before and the names of the calls. -/
theorem init_all_have_cache (calls : List InitCall) :
    ∀ (r r2 : Registry) (cache_name : String), init_all r calls = .returned r2 →
      (have_cache r2 cache_name = true
        ↔ have_cache r cache_name = true ∨ ∃ c ∈ calls, c.cache_name = cache_name) := by
  induction calls with
  | nil =>
    intro r r2 cache_name h
    simp only [init_all] at h
    injection h with h
    subst h
    simp
  | cons c rest ih =>
    intro r r2 cache_name h
    obtain ⟨r1, hr1⟩ : ∃ r1, cache_init r c.cache_name c.host c.port c.user c.password
        = .returned r1 := ⟨_, cache_init_eq r c.cache_name c.host c.port c.user c.password⟩
    simp only [init_all, InitCall.run, hr1] at h
    rw [ih r1 r2 cache_name h]
    have hstep := cache_init_find r r1 c.cache_name c.host c.port c.user c.password hr1
      cache_name
    simp only [have_cache, hstep]
    cases hf : find r cache_name with
    | some found => simp
    | none =>
      by_cases hn : cache_name = c.cache_name
      · simp [hn]
      · have hn2 : ¬ c.cache_name = cache_name := fun h => hn h.symm
        simp [hn, hn2]

/-- C19: a call of `cache_init` for a name without entry adds exactly one entry
under that name, constructs one cache with the arguments given and starts it; a
call for a name that has an entry returns with the registry and the list of
constructions and starts unchanged. After a call for `cache_name` every entry
under another name is as before, and after any further calls of `cache_init`
the entry under `cache_name` is still the same and a call for `cache_name`,
whatever host, port, user and password it passes, changes nothing. -/
theorem C19_cache_init_idempotent (r : Registry) (cache_name host : String) (port : Int)
    (user password : String) :
    (have_cache r cache_name = false →
      cache_init r cache_name host port user password
        = .returned
            { g_fabric_caches := r.g_fabric_caches ++
                [(cache_name, new_FabricCache host port user password)],
              events := r.events ++
                [.constructed (new_FabricCache host port user password),
                 .started cache_name (new_FabricCache host port user password)] }) ∧
    (have_cache r cache_name = true →
      cache_init r cache_name host port user password = .returned r) ∧
    (∃ r1, cache_init r cache_name host port user password = .returned r1) ∧
    (∀ r1, cache_init r cache_name host port user password = .returned r1 →
      (∀ other, other ≠ cache_name → find r1 other = find r other) ∧
      (∀ (calls : List InitCall) (r2 : Registry), init_all r1 calls = .returned r2 →
        find r2 cache_name = find r1 cache_name ∧
        ∀ (host2 : String) (port2 : Int) (user2 password2 : String),
          cache_init r2 cache_name host2 port2 user2 password2 = .returned r2)) := by
  refine ⟨?_, ?_, ⟨_, cache_init_eq r cache_name host port user password⟩, ?_⟩
  · intro h
    simp [cache_init_eq, h]
  · intro h
    simp [cache_init_eq, h]
  · intro r1 h1
    have hfind := cache_init_find r r1 cache_name host port user password h1
    constructor
    · intro other hother
      rw [hfind other]
      cases hf : find r other <;> simp [hother]
    · intro calls r2 h2
      have hsome : ∃ cache, find r1 cache_name = some cache := by
        rw [hfind cache_name]
        cases hf : find r cache_name <;> simp
      obtain ⟨cache, hcache⟩ := hsome
      have h2f := init_all_find calls r1 r2 cache_name cache hcache h2
      refine ⟨by rw [h2f, hcache], ?_⟩
      intro host2 port2 user2 password2
      simp [cache_init_eq, have_cache, h2f]

/-- C19 on the empty registry: the first call for `a` adds one entry; after a
call for `b`, a second call for `a` with other arguments changes nothing. -/
theorem C19_cache_init_idempotent_witness :
    cache_init Registry.initial "a" "h1" 1 "u" "p"
      = .returned
          { g_fabric_caches := [("a", new_FabricCache "h1" 1 "u" "p")],
            events := [.constructed (new_FabricCache "h1" 1 "u" "p"),
                       .started "a" (new_FabricCache "h1" 1 "u" "p")] } ∧
    cache_init
        { g_fabric_caches :=
            [("a", new_FabricCache "h1" 1 "u" "p"), ("b", new_FabricCache "h2" 2 "u" "p")],
          events := [.constructed (new_FabricCache "h1" 1 "u" "p"),
                     .started "a" (new_FabricCache "h1" 1 "u" "p"),
                     .constructed (new_FabricCache "h2" 2 "u" "p"),
                     .started "b" (new_FabricCache "h2" 2 "u" "p")] }
        "a" "h3" 3 "x" "y"
      = .returned
          { g_fabric_caches :=
              [("a", new_FabricCache "h1" 1 "u" "p"), ("b", new_FabricCache "h2" 2 "u" "p")],
            events := [.constructed (new_FabricCache "h1" 1 "u" "p"),
                       .started "a" (new_FabricCache "h1" 1 "u" "p"),
                       .constructed (new_FabricCache "h2" 2 "u" "p"),
                       .started "b" (new_FabricCache "h2" 2 "u" "p")] } :=
  ⟨(C19_cache_init_idempotent Registry.initial "a" "h1" 1 "u" "p").1 (by decide),
    (((C19_cache_init_idempotent Registry.initial "a" "h1" 1 "u" "p").2.2.2 _
        ((C19_cache_init_idempotent Registry.initial "a" "h1" 1 "u" "p").1 (by decide))).2
      [{ cache_name := "b", host := "h2", port := 2, user := "u", password := "p" }]
      _ (by decide)).2 "h3" 3 "x" "y"⟩

/-- C20: `lookup_group` and `lookup_shard` raise `base_error` with the text
`Fabric Cache '<name>' not initialized` when `have_cache(name)` is false. When
it is true, there is an entry under the name, and a `group_lookup` or
`shard_lookup` of that entry which returns a server list makes the routine
return the `LookupResult` of exactly that list, while one that throws makes the
routine end with the exception thrown; in all cases the registry is left as it
was. After calls of `cache_init` from process start, `have_cache` is false for
exactly the names no call was made with. -/
theorem C20_lookup (lib : FabricLibrary) (r : Registry)
    (cache_name group_id table_name shard_key : String) :
    (have_cache r cache_name = false →
      lookup_group lib r cache_name group_id
        = (.raised (.base_error ("Fabric Cache '" ++ cache_name ++ "' not initialized")), r) ∧
      lookup_shard lib r cache_name table_name shard_key
        = (.raised (.base_error ("Fabric Cache '" ++ cache_name ++ "' not initialized")), r)) ∧
    (have_cache r cache_name = true →
      ∃ cache, find r cache_name = some cache ∧
        (∀ servers, lib.group_lookup cache group_id = .ok servers →
          lookup_group lib r cache_name group_id
            = (.returned { server_list := servers }, r)) ∧
        (∀ e, lib.group_lookup cache group_id = .error e →
          lookup_group lib r cache_name group_id = (.raised e, r)) ∧
        (∀ servers, lib.shard_lookup cache table_name shard_key = .ok servers →
          lookup_shard lib r cache_name table_name shard_key
            = (.returned { server_list := servers }, r)) ∧
        (∀ e, lib.shard_lookup cache table_name shard_key = .error e →
          lookup_shard lib r cache_name table_name shard_key = (.raised e, r))) ∧
    (∀ (calls : List InitCall) (r2 : Registry),
      init_all Registry.initial calls = .returned r2 →
      (have_cache r2 cache_name = false ↔ ∀ c ∈ calls, c.cache_name ≠ cache_name)) := by
  refine ⟨?_, ?_, ?_⟩
  · intro h
    have hf : find r cache_name = none := by
      cases hf : find r cache_name with
      | none => rfl
      | some found => simp [have_cache, hf] at h
    simp [lookup_group, lookup_shard, hf]
  · intro h
    cases hf : find r cache_name with
    | none => simp [have_cache, hf] at h
    | some found =>
      refine ⟨found, rfl, ?_, ?_, ?_, ?_⟩
      · intro servers hl
        simp [lookup_group, hf, hl, lookup_result]
      · intro e hl
        simp [lookup_group, hf, hl, lookup_result]
      · intro servers hl
        simp [lookup_shard, hf, hl, lookup_result]
      · intro e hl
        simp [lookup_shard, hf, hl, lookup_result]
  · intro calls r2 h2
    have h := init_all_have_cache calls Registry.initial r2 cache_name h2
    have h0 : have_cache Registry.initial cache_name = false := rfl
    rw [h0] at h
    constructor
    · intro hfalse c hc heq
      have := h.2 (Or.inr ⟨c, hc, heq⟩)
      simp [hfalse] at this
    · intro hall
      cases hh : have_cache r2 cache_name with
      | false => rfl
      | true =>
        rcases h.1 hh with h1 | ⟨c, hc, heq⟩
        · simp at h1
        · exact absurd heq (hall c hc)

/-- C20 before any call of `cache_init`, and after a call for `a` with host
`h1`: the group `ha` and the table `t` yield the server lists of the library,
the group `zz` its exception. -/
theorem C20_lookup_witness :
    lookup_group demo_fabric Registry.initial "a" "ha"
      = (.raised (.base_error "Fabric Cache 'a' not initialized"), Registry.initial) ∧
    lookup_shard demo_fabric Registry.initial "a" "t" "k"
      = (.raised (.base_error "Fabric Cache 'a' not initialized"), Registry.initial) ∧
    lookup_group demo_fabric
        { g_fabric_caches := [("a", new_FabricCache "h1" 1 "u" "p")], events := [] } "a" "ha"
      = (.returned { server_list := [{ host := "h1", port := 3306 }] },
          { g_fabric_caches := [("a", new_FabricCache "h1" 1 "u" "p")], events := [] }) ∧
    lookup_shard demo_fabric
        { g_fabric_caches := [("a", new_FabricCache "h1" 1 "u" "p")], events := [] }
        "a" "t" "k"
      = (.returned { server_list := [{ host := "h1", port := 3307 }] },
          { g_fabric_caches := [("a", new_FabricCache "h1" 1 "u" "p")], events := [] }) ∧
    lookup_group demo_fabric
        { g_fabric_caches := [("a", new_FabricCache "h1" 1 "u" "p")], events := [] } "a" "zz"
      = (.raised (.base_error "unknown group"),
          { g_fabric_caches := [("a", new_FabricCache "h1" 1 "u" "p")], events := [] }) := by
  have h0 := (C20_lookup demo_fabric Registry.initial "a" "ha" "t" "k").1 (by decide)
  obtain ⟨cache, hfind, hg, _, hs, _⟩ := (C20_lookup demo_fabric
    { g_fabric_caches := [("a", new_FabricCache "h1" 1 "u" "p")], events := [] }
    "a" "ha" "t" "k").2.1 (by decide)
  obtain ⟨cache2, hfind2, _, hge, _, _⟩ := (C20_lookup demo_fabric
    { g_fabric_caches := [("a", new_FabricCache "h1" 1 "u" "p")], events := [] }
    "a" "zz" "t" "k").2.1 (by decide)
  have hc : new_FabricCache "h1" 1 "u" "p" = cache := Option.some.inj hfind
  have hc2 : new_FabricCache "h1" 1 "u" "p" = cache2 := Option.some.inj hfind2
  subst hc
  subst hc2
  exact ⟨h0.1, h0.2, hg _ rfl, hs _ rfl, hge _ rfl⟩

end Routing.fabric_cache
